import Mathlib

/-!
Verification of netpongterm.

A shallow embedding of the Go sources of `netpongterm` (a terminal pong game
played over UDP) together with theorems about it.

* `game.go`     : `GameState`, `NewGameState`, `EnterMode`, `Update`,
                  `MovePaddle`, `RelaviteMovePaddle`
* `settings.go` : the game constants
* `network.go`  : `PacketHeader`, `SendPacket`, `ReadPacket`, `Check`
* `server.go`   : `GenerateViewSettings`

Modelling conventions.

* Go's `int8`/`int16`/`int32`/`int64` values are Lean integers; every
  arithmetic operation of the source is followed by the two's complement
  wrap of its width (`wrap32` and friends), as Go specifies.
* Go's `/` on integers truncates towards zero: `Int.tdiv`.
* The `float64` field `Tick` is a type parameter `F` of `GameState`.  The game
  logic only needs the constant `initialTick` and the map
  `t ↦ t*99/100 + .35`, which are supplied by the class `TickModel`, and the
  theorems about the game hold for every such pair.  The instance used for
  concrete states is `Float64`, the 64-bit pattern of the float
  (`math.Float64bits`, which is also what `encoding/binary` writes), with the
  three operations of line 197 rounded to nearest, ties to even, as IEEE 754
  binary64 arithmetic does.
* Bytes are `Fin 256`.
-/

namespace NetPongTerm

/-! ## Machine integers -/

/-- Two's complement wrap to `int8`. -/
def wrap8 (x : Int) : Int := (x + 128) % 256 - 128

/-- Two's complement wrap to `int16`. -/
def wrap16 (x : Int) : Int := (x + 32768) % 65536 - 32768

/-- Two's complement wrap to `int32`. -/
def wrap32 (x : Int) : Int := (x + 2147483648) % 4294967296 - 2147483648

/-- Two's complement wrap to `int64`. -/
def wrap64 (x : Int) : Int :=
  (x + 9223372036854775808) % 18446744073709551616 - 9223372036854775808

/-- The value is representable as an `int8`. -/
def InInt8 (x : Int) : Prop := -128 ≤ x ∧ x < 128

/-- The value is representable as an `int16`. -/
def InInt16 (x : Int) : Prop := -32768 ≤ x ∧ x < 32768

/-- The value is representable as an `int32`. -/
def InInt32 (x : Int) : Prop := -2147483648 ≤ x ∧ x < 2147483648

/-- The value is representable as an `int64`. -/
def InInt64 (x : Int) : Prop := -9223372036854775808 ≤ x ∧ x < 9223372036854775808

instance (x : Int) : Decidable (InInt8 x) := by unfold InInt8; infer_instance
instance (x : Int) : Decidable (InInt16 x) := by unfold InInt16; infer_instance
instance (x : Int) : Decidable (InInt32 x) := by unfold InInt32; infer_instance
instance (x : Int) : Decidable (InInt64 x) := by unfold InInt64; infer_instance

/-! ## settings.go -/

/-- The constant `paddleMargin`. -/
def paddleMargin : Int := 1
/-- The constant `playerLooseModeTimeOut`. -/
def playerLooseModeTimeOut : Int := 12
/-- The constant `maxPaddleSize`. -/
def maxPaddleSize : Int := 10
/-- The constant `minPaddleSize`. -/
def minPaddleSize : Int := 4
/-- The constant `initialPaddleSize`. -/
def initialPaddleSize : Int := 6

/-! ## game.go: data model -/

/-- The struct `BallSpeed` (two `int32`). -/
structure BallSpeed where
  X : Int
  Y : Int
  deriving DecidableEq

/-- The struct `Ball`: top-left corner `(X, Y)` and size (four `int32`). -/
structure Ball where
  X : Int
  Y : Int
  Width : Int
  Height : Int
  deriving DecidableEq

/-- The struct `Paddle`: `(X, Y)` is the centre of the paddle (three `int32`). -/
structure Paddle where
  X : Int
  Y : Int
  Size : Int
  deriving DecidableEq

/-- The constant `GameModePlaying` of type `GameMode` (`int8`). -/
def GameModePlaying : Int := 0
/-- The constant `GameModeLeftPlayerLoosed`. -/
def GameModeLeftPlayerLoosed : Int := 1
/-- The constant `GameModeRightPlayerLoosed`. -/
def GameModeRightPlayerLoosed : Int := 2

/-- The struct `GameState`.  `Mode` is a `GameMode` (`int8`), `ModeTimeOut` an
`int16`, `Tick` a `float64` (the parameter `F`), `Debug` an `int8`, every other
scalar an `int32`. -/
structure GameState (F : Type) where
  Mode : Int
  ModeTimeOut : Int
  Ball : Ball
  BallSpeed : BallSpeed
  LeftPlayerPaddle : Paddle
  RightPlayerPaddle : Paddle
  Tick : F
  Height : Int
  Width : Int
  LeftPlayerScore : Int
  RightPlayerScore : Int
  Debug : Int
  deriving DecidableEq

/-- The constant `MoveNonePaddle`. -/
def MoveNonePaddle : Int := 0
/-- The constant `MoveLeftPaddle`. -/
def MoveLeftPaddle : Int := 1
/-- The constant `MoveRightPaddle`. -/
def MoveRightPaddle : Int := 2

/-- The struct `PaddleMovement` (`RelativeY` is an `int32`, `Player` an `int8`). -/
structure PaddleMovement where
  RelativeY : Int
  Player : Int
  deriving DecidableEq

/-- The two `float64` computations of the game logic: the constant
`initialTick` (70) and the right-hand side of `g.Tick = g.Tick*99/100 + .35`. -/
class TickModel (F : Type) where
  /-- The constant `initialTick` as a value of type `F`. -/
  initialTick : F
  /-- The map `t ↦ t*99/100 + .35`. -/
  tickStep : F → F

/-- A `float64`: its 64-bit pattern (`math.Float64bits`), sign bit, 11 bits of
biased exponent, 52 bits of fraction. -/
abbrev Float64 := Nat

/-- The number of binary digits of `n`; the first argument bounds the
recursion. -/
def bitLength : Nat → Nat → Nat
  | 0, _ => 0
  | fuel + 1, n => if n = 0 then 0 else bitLength fuel (n / 2) + 1

/-- The `float64` nearest to the non-negative rational `num / den` (`den`
positive), ties to even, as a bit pattern with sign bit 0: `p` is the binary
exponent of the rational, `e` the exponent of the last place (at least -1074,
where the subnormal numbers are), `q1` the rounded significand; a value of
`2 ^ 1024` or more is the infinity `0x7FF0000000000000`. -/
def roundMagnitude (num den : Nat) : Float64 :=
  if num = 0 then 0
  else
    let lg : Int := (bitLength num num : Int) - (bitLength den den : Int)
    let p : Int := if num * 2 ^ (-lg).toNat ≥ den * 2 ^ lg.toNat then lg else lg - 1
    let e : Int := max (p - 52) (-1074)
    let n := num * 2 ^ (-e).toNat
    let d := den * 2 ^ e.toNat
    let q := n / d
    let r := n % d
    let q1 := if 2 * r > d ∨ (2 * r = d ∧ q % 2 = 1) then q + 1 else q
    let bits := (e + 1074).toNat * 2 ^ 52 + q1
    if bits ≥ 9218868437227405312 then 9218868437227405312 else bits

/-- The biased exponent field of a `float64`. -/
def f64Exponent (b : Float64) : Nat := b / 2 ^ 52 % 2048
/-- The fraction field of a `float64`. -/
def f64Fraction (b : Float64) : Nat := b % 2 ^ 52
/-- The sign bit of a `float64`. -/
def f64Negative (b : Float64) : Bool := decide (b / 2 ^ 63 % 2 = 1)
/-- The `float64` is a NaN. -/
def f64IsNaN (b : Float64) : Bool := decide (f64Exponent b = 2047 ∧ f64Fraction b ≠ 0)
/-- The `float64` is an infinity. -/
def f64IsInf (b : Float64) : Bool := decide (f64Exponent b = 2047 ∧ f64Fraction b = 0)
/-- A NaN operand comes out of an operation with its quiet bit set. -/
def f64Quiet (b : Float64) : Float64 := if b / 2 ^ 51 % 2 = 1 then b else b + 2 ^ 51
/-- The magnitude of a finite `float64` is `f64Num b / f64Den b`: this is the
numerator. -/
def f64Num (b : Float64) : Nat :=
  (if f64Exponent b = 0 then f64Fraction b else 2 ^ 52 + f64Fraction b) *
    2 ^ (max (f64Exponent b) 1 - 1075)
/-- The denominator of the magnitude of a finite `float64`. -/
def f64Den (b : Float64) : Nat := 2 ^ (1075 - max (f64Exponent b) 1)
/-- The `float64` nearest to `num / den` with the given sign. -/
def f64Round (negative : Bool) (num den : Nat) : Float64 :=
  (if negative then 2 ^ 63 else 0) + roundMagnitude num den

/-- The `float64` product `t * c` for a positive integer constant `c` that a
`float64` holds exactly (here 99). -/
def f64MulConst (t : Float64) (c : Nat) : Float64 :=
  if f64IsNaN t then f64Quiet t
  else if f64IsInf t then t
  else f64Round (f64Negative t) (f64Num t * c) (f64Den t)

/-- The `float64` quotient `t / c` for a positive integer constant `c` that a
`float64` holds exactly (here 100). -/
def f64DivConst (t : Float64) (c : Nat) : Float64 :=
  if f64IsNaN t then f64Quiet t
  else if f64IsInf t then t
  else f64Round (f64Negative t) (f64Num t) (f64Den t * c)

/-- The `float64` sum `t + c` for a positive finite `float64` constant `c`
(here the `float64` of `.35`); an exact sum of zero is `+0`. -/
def f64AddConst (t c : Float64) : Float64 :=
  if f64IsNaN t then f64Quiet t
  else if f64IsInf t then t
  else if f64Negative t then
    if f64Num c * f64Den t ≥ f64Num t * f64Den c then
      f64Round false (f64Num c * f64Den t - f64Num t * f64Den c) (f64Den t * f64Den c)
    else
      f64Round true (f64Num t * f64Den c - f64Num c * f64Den t) (f64Den t * f64Den c)
  else f64Round false (f64Num t * f64Den c + f64Num c * f64Den t) (f64Den t * f64Den c)

/-- The tick interval as the `float64` of the source: `initialTick` is the
constant 70 converted to `float64`, and `g.Tick*99/100 + .35` is a product, a
quotient and a sum, each rounded, with `.35` converted to `float64`. -/
instance : TickModel Float64 where
  initialTick := roundMagnitude 70 1
  tickStep t := f64AddConst (f64DivConst (f64MulConst t 99) 100) (roundMagnitude 35 100)

/-- The variable `initialBallSpeed`. -/
def initialBallSpeed : BallSpeed := { X := 1, Y := 1 }

/-- The variable `initialBall`. -/
def initialBall : Ball := { X := 5, Y := 5, Width := 2, Height := 1 }

/-- The function `Btoi8`. -/
def Btoi8 (b : Bool) : Int := if b then 1 else 0

/-- The function `I8tob`. -/
def I8tob (n : Int) : Bool := decide (n ≠ 0)

/-! ## game.go: operations -/

section Game

variable {F : Type} [TickModel F]

/-- The function `NewGameState`; the global `debugFlag` is a parameter.  The
fields that the composite literal omits are zero. -/
def NewGameState (debugFlag : Bool) (width height : Int) : GameState F :=
  { Mode := GameModePlaying
    ModeTimeOut := 0
    Ball := initialBall
    BallSpeed := initialBallSpeed
    LeftPlayerPaddle :=
      { X := paddleMargin, Y := Int.tdiv height 2, Size := initialPaddleSize }
    RightPlayerPaddle :=
      { X := wrap32 (wrap32 (width - paddleMargin) - 1)
        Y := Int.tdiv height 2
        Size := initialPaddleSize }
    Tick := TickModel.initialTick
    Height := height
    Width := width
    LeftPlayerScore := 0
    RightPlayerScore := 0
    Debug := Btoi8 debugFlag }

/-- The method `GameState.EnterMode`.  A mode outside the three constants
matches no case of the `switch` and leaves the state as it is. -/
def EnterMode (g : GameState F) (mode : Int) : GameState F :=
  if mode = GameModePlaying then
    { g with Mode := GameModePlaying, ModeTimeOut := 0, Tick := TickModel.initialTick }
  else if mode = GameModeLeftPlayerLoosed then
    let g1 : GameState F :=
      { g with Mode := GameModeLeftPlayerLoosed
               ModeTimeOut := playerLooseModeTimeOut
               Tick := TickModel.initialTick }
    if g1.LeftPlayerPaddle.Size < 10 then
      let g2 : GameState F :=
        { g1 with LeftPlayerPaddle :=
            { g1.LeftPlayerPaddle with Size := wrap32 (g1.LeftPlayerPaddle.Size + 1) } }
      if g2.RightPlayerPaddle.Size > minPaddleSize then
        { g2 with RightPlayerPaddle :=
            { g2.RightPlayerPaddle with Size := wrap32 (g2.RightPlayerPaddle.Size - 1) } }
      else g2
    else g1
  else if mode = GameModeRightPlayerLoosed then
    let g1 : GameState F :=
      { g with Mode := GameModeRightPlayerLoosed
               ModeTimeOut := playerLooseModeTimeOut
               Tick := TickModel.initialTick }
    if g1.RightPlayerPaddle.Size < 10 then
      let g2 : GameState F :=
        { g1 with RightPlayerPaddle :=
            { g1.RightPlayerPaddle with Size := wrap32 (g1.RightPlayerPaddle.Size + 1) } }
      if g2.LeftPlayerPaddle.Size > minPaddleSize then
        { g2 with LeftPlayerPaddle :=
            { g2.LeftPlayerPaddle with Size := wrap32 (g2.LeftPlayerPaddle.Size - 1) } }
      else g2
    else g1
  else g

/-- The condition of the inner `if` of `Update` (lines 163-164 and 176-177):
`b.Y+b.Height-1 > p.Y-p.Size/2 && b.Y < p.Y+p.Size/2`, in `int32` arithmetic. -/
def paddleTest (b : Ball) (p : Paddle) : Prop :=
  wrap32 (wrap32 (b.Y + b.Height) - 1) > wrap32 (p.Y - Int.tdiv p.Size 2) ∧
    b.Y < wrap32 (p.Y + Int.tdiv p.Size 2)

instance (b : Ball) (p : Paddle) : Decidable (paddleTest b p) := by
  unfold paddleTest; infer_instance

/-- Lines 159-160 of `Update`: the ball advances by its speed. -/
def advanceBall (g : GameState F) : GameState F :=
  { g with Ball :=
      { g.Ball with X := wrap32 (g.Ball.X + g.BallSpeed.X)
                    Y := wrap32 (g.Ball.Y + g.BallSpeed.Y) } }

/-- Lines 163-173 of `Update`: the body of `if g.Ball.X <= g.LeftPlayerPaddle.X`. -/
def leftPaddleBranch (g : GameState F) : GameState F :=
  let g1 : GameState F :=
    if paddleTest g.Ball g.LeftPlayerPaddle then g
    else
      EnterMode
        { g with RightPlayerScore := wrap32 (g.RightPlayerScore + 1)
                 Ball := { g.Ball with Y := g.LeftPlayerPaddle.Y } }
        GameModeLeftPlayerLoosed
  { g1 with Ball := { g1.Ball with X := wrap32 (g1.LeftPlayerPaddle.X + 1) }
            BallSpeed := { g1.BallSpeed with X := wrap32 (g1.BallSpeed.X * -1) } }

/-- Lines 176-186 of `Update`: the body of
`else if g.Ball.X+g.Ball.Width >= g.RightPlayerPaddle.X`. -/
def rightPaddleBranch (g : GameState F) : GameState F :=
  let g1 : GameState F :=
    if paddleTest g.Ball g.RightPlayerPaddle then g
    else
      EnterMode
        { g with LeftPlayerScore := wrap32 (g.LeftPlayerScore + 1)
                 Ball := { g.Ball with Y := g.RightPlayerPaddle.Y } }
        GameModeRightPlayerLoosed
  { g1 with Ball := { g1.Ball with X := wrap32 (g1.RightPlayerPaddle.X - g1.Ball.Width) }
            BallSpeed := { g1.BallSpeed with X := wrap32 (g1.BallSpeed.X * -1) } }

/-- Lines 162-187 of `Update`: the paddle columns. -/
def paddleStep (g : GameState F) : GameState F :=
  if g.Ball.X ≤ g.LeftPlayerPaddle.X then leftPaddleBranch g
  else if wrap32 (g.Ball.X + g.Ball.Width) ≥ g.RightPlayerPaddle.X then rightPaddleBranch g
  else g

/-- Lines 189-195 of `Update`: the top and bottom walls. -/
def wallStep (g : GameState F) : GameState F :=
  if g.Ball.Y ≤ 0 then
    { g with Ball := { g.Ball with Y := 0 }
             BallSpeed := { g.BallSpeed with Y := wrap32 (g.BallSpeed.Y * -1) } }
  else if wrap32 (g.Ball.Y + g.Ball.Height) ≥ g.Height then
    { g with Ball := { g.Ball with Y := wrap32 (g.Height - g.Ball.Height) }
             BallSpeed := { g.BallSpeed with Y := wrap32 (g.BallSpeed.Y * -1) } }
  else g

/-- Line 197 of `Update`: `g.Tick = g.Tick*99/100 + .35`. -/
def tickUpdate (g : GameState F) : GameState F :=
  { g with Tick := TickModel.tickStep g.Tick }

/-- Lines 199-204 and 207-212 of `Update`: the ball is pinned to the row of the
paddle `p`, the timeout is decremented, and below zero the game resumes. -/
def lostStep (g : GameState F) (p : Paddle) : GameState F :=
  let g1 : GameState F :=
    { g with Ball := { g.Ball with Y := p.Y }
             ModeTimeOut := wrap16 (g.ModeTimeOut - 1) }
  if g1.ModeTimeOut < 0 then EnterMode g1 GameModePlaying else g1

/-- The method `GameState.Update`.  A mode outside the three constants matches
no case of the `switch`. -/
def Update (g : GameState F) : GameState F :=
  if g.Mode = GameModePlaying then
    tickUpdate (wallStep (paddleStep (advanceBall g)))
  else if g.Mode = GameModeLeftPlayerLoosed then
    lostStep g g.LeftPlayerPaddle
  else if g.Mode = GameModeRightPlayerLoosed then
    lostStep g g.RightPlayerPaddle
  else g

/-- The method `Paddle.RelaviteMovePaddle`. -/
def RelaviteMovePaddle (p : Paddle) (relavtiveY gameHeight : Int) : Paddle :=
  let p1 : Paddle := { p with Y := wrap32 (p.Y + relavtiveY) }
  if p1.Y < Int.tdiv p1.Size 2 then
    { p1 with Y := Int.tdiv p1.Size 2 }
  else if p1.Y > wrap32 (gameHeight - Int.tdiv p1.Size 2) then
    { p1 with Y := wrap32 (gameHeight - Int.tdiv p1.Size 2) }
  else p1

/-- Lines 276-281 of `MovePaddle`: the `switch` on `paddleMovement.Player`. -/
def movePaddleSwitch (g : GameState F) (paddleMovement : PaddleMovement) : GameState F :=
  if paddleMovement.Player = MoveLeftPaddle then
    { g with LeftPlayerPaddle :=
        RelaviteMovePaddle g.LeftPlayerPaddle paddleMovement.RelativeY g.Height }
  else if paddleMovement.Player = MoveRightPaddle then
    { g with RightPlayerPaddle :=
        RelaviteMovePaddle g.RightPlayerPaddle paddleMovement.RelativeY g.Height }
  else g

/-- The method `GameState.MovePaddle`. -/
def MovePaddle (g : GameState F) (paddleMovement : PaddleMovement) : GameState F :=
  let g1 : GameState F := movePaddleSwitch g paddleMovement
  if g1.Mode = GameModeLeftPlayerLoosed ∨ g1.Mode = GameModeRightPlayerLoosed then
    Update { g1 with ModeTimeOut := wrap16 (g1.ModeTimeOut + 1) }
  else g1

/-- Repeated `Update`: `n` ticks of the server loop without any input. -/
def UpdateN : Nat → GameState F → GameState F
  | 0, g => g
  | n + 1, g => UpdateN n (Update g)

end Game

/-! ## network.go: data model -/

/-- The constant `MagicKey`. -/
def MagicKey : Int := 583276045987

/-- The constant `WindowSettingsPacket`. -/
def WindowSettingsPacket : Int := 0
/-- The constant `ViewSettingsPacket`. -/
def ViewSettingsPacket : Int := 1
/-- The constant `GameStatePacket`. -/
def GameStatePacket : Int := 2
/-- The constant `PaddleMovementPacket`. -/
def PaddleMovementPacket : Int := 3

/-- The errors a packet operation returns: the two variables of `network.go`
and the two errors of `io.ReadFull`. -/
inductive Error where
  | ErrUnknowPacketType
  | ErrInvalidMagicKey
  | EOF
  | ErrUnexpectedEOF
  deriving DecidableEq

/-- The struct `PacketHeader` (`MagicKey` is an `int64`, `Type` an `int8`; the
field `Type` is spelled `Type_`, as `Type` is reserved). -/
structure PacketHeader where
  MagicKey : Int
  Type_ : Int
  deriving DecidableEq

/-- The struct `WindowSettings` (two `int32` and an `int8`). -/
structure WindowSettings where
  Width : Int
  Height : Int
  Last : Int
  deriving DecidableEq

/-- The struct `ViewSettings` (three `int32` and an `int8`). -/
structure ViewSettings where
  XOffset : Int
  Height : Int
  Width : Int
  ControlledPaddle : Int
  deriving DecidableEq

/-- The interface `Packet`: a pointer to one of the four message structs, or
anything else (`nil` included), for which `SendPacket` has its `default` case. -/
inductive Packet where
  | windowSettings (p : WindowSettings)
  | viewSettings (p : ViewSettings)
  | gameState (p : GameState Float64)
  | paddleMovement (p : PaddleMovement)
  | other
  deriving DecidableEq

/-! ## network.go: `encoding/binary` with `binary.LittleEndian` -/

/-- A byte. -/
abbrev Byte := Fin 256

/-- The functions `PutUint8/16/32/64` of `binary.LittleEndian`: the `n` low
bytes of `v`, least significant first. -/
def putUint : Nat → Nat → List Byte
  | 0, _ => []
  | n + 1, v => ⟨v % 256, Nat.mod_lt _ (by decide)⟩ :: putUint n (v / 256)

/-- The functions `Uint8/16/32/64` of `binary.LittleEndian`. -/
def getUint : List Byte → Nat
  | [] => 0
  | b :: bs => b.val + 256 * getUint bs

/-- An `int8` is written as `uint8(v)`. -/
def putInt8 (x : Int) : List Byte := putUint 1 (x % 256).toNat
/-- An `int16` is written as `uint16(v)`. -/
def putInt16 (x : Int) : List Byte := putUint 2 (x % 65536).toNat
/-- An `int32` is written as `uint32(v)`. -/
def putInt32 (x : Int) : List Byte := putUint 4 (x % 4294967296).toNat
/-- An `int64` is written as `uint64(v)`. -/
def putInt64 (x : Int) : List Byte := putUint 8 (x % 18446744073709551616).toNat
/-- A `float64` is written as `math.Float64bits(v)`. -/
def putFloat64 (x : Float64) : List Byte := putUint 8 x

/-- The decoder of `binary.Read` reads an `int8` at its offset and advances. -/
def takeInt8 (bs : List Byte) : Int × List Byte :=
  (wrap8 (getUint (bs.take 1)), bs.drop 1)
/-- The decoder reads an `int16` as `int16(d.uint16())`. -/
def takeInt16 (bs : List Byte) : Int × List Byte :=
  (wrap16 (getUint (bs.take 2)), bs.drop 2)
/-- The decoder reads an `int32` as `int32(d.uint32())`. -/
def takeInt32 (bs : List Byte) : Int × List Byte :=
  (wrap32 (getUint (bs.take 4)), bs.drop 4)
/-- The decoder reads an `int64` as `int64(d.uint64())`. -/
def takeInt64 (bs : List Byte) : Int × List Byte :=
  (wrap64 (getUint (bs.take 8)), bs.drop 8)
/-- The decoder reads a `float64` as `math.Float64frombits(d.uint64())`. -/
def takeFloat64 (bs : List Byte) : Float64 × List Byte :=
  (getUint (bs.take 8), bs.drop 8)

/-- The bytes `binary.Write` produces for a `PacketHeader`. -/
def encodePacketHeader (h : PacketHeader) : List Byte :=
  putInt64 h.MagicKey ++ putInt8 h.Type_

/-- The bytes `binary.Write` produces for a `WindowSettings`. -/
def encodeWindowSettings (p : WindowSettings) : List Byte :=
  putInt32 p.Width ++ (putInt32 p.Height ++ putInt8 p.Last)

/-- The bytes `binary.Write` produces for a `ViewSettings`. -/
def encodeViewSettings (p : ViewSettings) : List Byte :=
  putInt32 p.XOffset ++ (putInt32 p.Height ++ (putInt32 p.Width ++ putInt8 p.ControlledPaddle))

/-- The bytes `binary.Write` produces for a `PaddleMovement`. -/
def encodePaddleMovement (p : PaddleMovement) : List Byte :=
  putInt32 p.RelativeY ++ putInt8 p.Player

/-- The bytes `binary.Write` produces for a `Ball`. -/
def encodeBall (b : Ball) : List Byte :=
  putInt32 b.X ++ (putInt32 b.Y ++ (putInt32 b.Width ++ putInt32 b.Height))

/-- The bytes `binary.Write` produces for a `BallSpeed`. -/
def encodeBallSpeed (b : BallSpeed) : List Byte :=
  putInt32 b.X ++ putInt32 b.Y

/-- The bytes `binary.Write` produces for a `Paddle`. -/
def encodePaddle (p : Paddle) : List Byte :=
  putInt32 p.X ++ (putInt32 p.Y ++ putInt32 p.Size)

/-- The bytes `binary.Write` produces for a `GameState`: the fields in
declaration order, nested structs inline, no padding. -/
def encodeGameState (g : GameState Float64) : List Byte :=
  putInt8 g.Mode ++ (putInt16 g.ModeTimeOut ++ (encodeBall g.Ball ++
    (encodeBallSpeed g.BallSpeed ++ (encodePaddle g.LeftPlayerPaddle ++
    (encodePaddle g.RightPlayerPaddle ++ (putFloat64 g.Tick ++ (putInt32 g.Height ++
    (putInt32 g.Width ++ (putInt32 g.LeftPlayerScore ++ (putInt32 g.RightPlayerScore ++
    putInt8 g.Debug))))))))))

/-- The decoder of `binary.Read` on a `PacketHeader`. -/
def decodePacketHeader (bs : List Byte) : PacketHeader × List Byte :=
  let a := takeInt64 bs
  let b := takeInt8 a.2
  ({ MagicKey := a.1, Type_ := b.1 }, b.2)

/-- The decoder of `binary.Read` on a `WindowSettings`. -/
def decodeWindowSettings (bs : List Byte) : WindowSettings × List Byte :=
  let a := takeInt32 bs
  let b := takeInt32 a.2
  let c := takeInt8 b.2
  ({ Width := a.1, Height := b.1, Last := c.1 }, c.2)

/-- The decoder of `binary.Read` on a `ViewSettings`. -/
def decodeViewSettings (bs : List Byte) : ViewSettings × List Byte :=
  let a := takeInt32 bs
  let b := takeInt32 a.2
  let c := takeInt32 b.2
  let d := takeInt8 c.2
  ({ XOffset := a.1, Height := b.1, Width := c.1, ControlledPaddle := d.1 }, d.2)

/-- The decoder of `binary.Read` on a `PaddleMovement`. -/
def decodePaddleMovement (bs : List Byte) : PaddleMovement × List Byte :=
  let a := takeInt32 bs
  let b := takeInt8 a.2
  ({ RelativeY := a.1, Player := b.1 }, b.2)

/-- The decoder of `binary.Read` on a `Ball`. -/
def decodeBall (bs : List Byte) : Ball × List Byte :=
  let a := takeInt32 bs
  let b := takeInt32 a.2
  let c := takeInt32 b.2
  let d := takeInt32 c.2
  ({ X := a.1, Y := b.1, Width := c.1, Height := d.1 }, d.2)

/-- The decoder of `binary.Read` on a `BallSpeed`. -/
def decodeBallSpeed (bs : List Byte) : BallSpeed × List Byte :=
  let a := takeInt32 bs
  let b := takeInt32 a.2
  ({ X := a.1, Y := b.1 }, b.2)

/-- The decoder of `binary.Read` on a `Paddle`. -/
def decodePaddle (bs : List Byte) : Paddle × List Byte :=
  let a := takeInt32 bs
  let b := takeInt32 a.2
  let c := takeInt32 b.2
  ({ X := a.1, Y := b.1, Size := c.1 }, c.2)

/-- The decoder of `binary.Read` on a `GameState`. -/
def decodeGameState (bs : List Byte) : GameState Float64 × List Byte :=
  let mode := takeInt8 bs
  let timeOut := takeInt16 mode.2
  let ball := decodeBall timeOut.2
  let speed := decodeBallSpeed ball.2
  let left := decodePaddle speed.2
  let right := decodePaddle left.2
  let tick := takeFloat64 right.2
  let height := takeInt32 tick.2
  let width := takeInt32 height.2
  let leftScore := takeInt32 width.2
  let rightScore := takeInt32 leftScore.2
  let debug := takeInt8 rightScore.2
  ({ Mode := mode.1, ModeTimeOut := timeOut.1, Ball := ball.1, BallSpeed := speed.1,
     LeftPlayerPaddle := left.1, RightPlayerPaddle := right.1, Tick := tick.1,
     Height := height.1, Width := width.1, LeftPlayerScore := leftScore.1,
     RightPlayerScore := rightScore.1, Debug := debug.1 }, debug.2)

/-- The call `io.ReadFull(r, bs)` of `binary.Read` on a `bytes.Reader` holding
`r`, with `len(bs) = n`: the `n` bytes read and the rest of the reader. -/
def readFull (n : Nat) (r : List Byte) : Except Error (List Byte × List Byte) :=
  if n ≤ r.length then .ok (r.take n, r.drop n)
  else if r.length = 0 then .error Error.EOF
  else .error Error.ErrUnexpectedEOF

/-- The encoded size of a `PacketHeader`. -/
def sizePacketHeader : Nat := 9
/-- The encoded size of a `WindowSettings`. -/
def sizeWindowSettings : Nat := 9
/-- The encoded size of a `ViewSettings`. -/
def sizeViewSettings : Nat := 13
/-- The encoded size of a `GameState`. -/
def sizeGameState : Nat := 76
/-- The encoded size of a `PaddleMovement`. -/
def sizePaddleMovement : Nat := 5

/-! ## network.go: operations -/

/-- The method `PacketHeader.Check`. -/
def PacketHeader.Check (h : PacketHeader) : Except Error Unit :=
  if h.MagicKey ≠ NetPongTerm.MagicKey then .error Error.ErrInvalidMagicKey else .ok ()

/-- The function `SendPacket`, up to the socket: the result is the datagram
handed to `conn.Write` or `conn.WriteTo`. -/
def SendPacket (packet : Packet) : Except Error (List Byte) :=
  match packet with
  | Packet.windowSettings p =>
      .ok (encodePacketHeader { MagicKey := MagicKey, Type_ := WindowSettingsPacket } ++
        encodeWindowSettings p)
  | Packet.viewSettings p =>
      .ok (encodePacketHeader { MagicKey := MagicKey, Type_ := ViewSettingsPacket } ++
        encodeViewSettings p)
  | Packet.gameState p =>
      .ok (encodePacketHeader { MagicKey := MagicKey, Type_ := GameStatePacket } ++
        encodeGameState p)
  | Packet.paddleMovement p =>
      .ok (encodePacketHeader { MagicKey := MagicKey, Type_ := PaddleMovementPacket } ++
        encodePaddleMovement p)
  | Packet.other => .error Error.ErrUnknowPacketType

/-- The receive buffer of `ReadPacket` after `conn.ReadFromUDP(buf)`: 1024
bytes, the datagram (cut at 1024 bytes) followed by zeros. -/
def recvBuffer (datagram : List Byte) : List Byte :=
  datagram.take 1024 ++ List.replicate (1024 - (datagram.take 1024).length) 0

/-- Lines 73-110 of `ReadPacket`: the `switch` on `packetHeader.Type`, reading
the payload from what is left in the reader. -/
def readPayload (packetHeader : PacketHeader) (reader : List Byte) :
    Except Error (PacketHeader × Packet) :=
  if packetHeader.Type_ = WindowSettingsPacket then
    match readFull sizeWindowSettings reader with
    | .error e => .error e
    | .ok (pb, _) => .ok (packetHeader, Packet.windowSettings (decodeWindowSettings pb).1)
  else if packetHeader.Type_ = ViewSettingsPacket then
    match readFull sizeViewSettings reader with
    | .error e => .error e
    | .ok (pb, _) => .ok (packetHeader, Packet.viewSettings (decodeViewSettings pb).1)
  else if packetHeader.Type_ = GameStatePacket then
    match readFull sizeGameState reader with
    | .error e => .error e
    | .ok (pb, _) => .ok (packetHeader, Packet.gameState (decodeGameState pb).1)
  else if packetHeader.Type_ = PaddleMovementPacket then
    match readFull sizePaddleMovement reader with
    | .error e => .error e
    | .ok (pb, _) => .ok (packetHeader, Packet.paddleMovement (decodePaddleMovement pb).1)
  else .error Error.ErrUnknowPacketType

/-- Lines 68-110 of `ReadPacket`: the header is checked, then the payload is
read. -/
def checkAndRead (packetHeader : PacketHeader) (reader : List Byte) :
    Except Error (PacketHeader × Packet) :=
  match packetHeader.Check with
  | .error e => .error e
  | .ok _ => readPayload packetHeader reader

/-- The function `ReadPacket`, from the socket on: `datagram` is what
`conn.ReadFromUDP` receives.  The sender address is not modelled. -/
def ReadPacket (datagram : List Byte) : Except Error (PacketHeader × Packet) :=
  match readFull sizePacketHeader (recvBuffer datagram) with
  | .error e => .error e
  | .ok (hb, reader) => checkAndRead (decodePacketHeader hb).1 reader

/-! ## server.go -/

/-- The struct `ClientConn`; the address is an uninterpreted number. -/
structure ClientConn where
  Addr : Nat
  WindowSettings : WindowSettings
  ViewSettings : ViewSettings
  deriving DecidableEq

/-- The first loop of `GenerateViewSettings` (lines 111-118), started with the
running `xOffset` and `height`: the clients with their offsets, and the final
values of the two variables. -/
def offsetLoop (xOffset height : Int) : List ClientConn → List ClientConn × Int × Int
  | [] => ([], xOffset, height)
  | c :: cs =>
    let height1 := if height > c.WindowSettings.Height then c.WindowSettings.Height else height
    let c1 : ClientConn := { c with ViewSettings := { c.ViewSettings with XOffset := xOffset } }
    let r := offsetLoop (wrap32 (xOffset + c.WindowSettings.Width)) height1 cs
    (c1 :: r.1, r.2.1, r.2.2)

/-- The body of the second loop of `GenerateViewSettings` (lines 121-123). -/
def shareView (height xOffset : Int) (c : ClientConn) : ClientConn :=
  { c with ViewSettings :=
      { c.ViewSettings with Height := height
                            Width := xOffset
                            ControlledPaddle := MoveNonePaddle } }

/-- The assignment `s.Clients[i].ViewSettings.ControlledPaddle = paddle`. -/
def setControlledPaddle (paddle : Int) : Nat → List ClientConn → List ClientConn
  | _, [] => []
  | 0, c :: cs => { c with ViewSettings := { c.ViewSettings with ControlledPaddle := paddle } } :: cs
  | i + 1, c :: cs => c :: setControlledPaddle paddle i cs

/-- The method `Server.GenerateViewSettings` on the slice `s.Clients`; on an
empty slice `s.Clients[0]` panics, which is `none`. -/
def GenerateViewSettings (clients : List ClientConn) : Option (List ClientConn) :=
  match clients with
  | [] => none
  | c0 :: _ =>
    let r := offsetLoop 0 c0.WindowSettings.Height clients
    let shared := r.1.map (shareView r.2.2 r.2.1)
    let withRight := setControlledPaddle MoveRightPaddle (shared.length - 1) shared
    some (setControlledPaddle MoveLeftPaddle 0 withRight)

end NetPongTerm

namespace NetPongTerm

/-! ## Well-formedness: every field holds a value of its Go type -/

/-- Every field of the `Ball` is an `int32`. -/
def Ball.InRange (b : Ball) : Prop :=
  InInt32 b.X ∧ InInt32 b.Y ∧ InInt32 b.Width ∧ InInt32 b.Height

/-- Every field of the `BallSpeed` is an `int32`. -/
def BallSpeed.InRange (b : BallSpeed) : Prop := InInt32 b.X ∧ InInt32 b.Y

/-- Every field of the `Paddle` is an `int32`. -/
def Paddle.InRange (p : Paddle) : Prop := InInt32 p.X ∧ InInt32 p.Y ∧ InInt32 p.Size

/-- Every field of the `WindowSettings` holds a value of its Go type. -/
def WindowSettings.InRange (p : WindowSettings) : Prop :=
  InInt32 p.Width ∧ InInt32 p.Height ∧ InInt8 p.Last

/-- Every field of the `ViewSettings` holds a value of its Go type. -/
def ViewSettings.InRange (p : ViewSettings) : Prop :=
  InInt32 p.XOffset ∧ InInt32 p.Height ∧ InInt32 p.Width ∧ InInt8 p.ControlledPaddle

/-- Every field of the `PaddleMovement` holds a value of its Go type. -/
def PaddleMovement.InRange (p : PaddleMovement) : Prop :=
  InInt32 p.RelativeY ∧ InInt8 p.Player

/-- Every field of the `GameState` holds a value of its Go type; the tick is
any 64-bit pattern. -/
def GameState.InRange (g : GameState Float64) : Prop :=
  InInt8 g.Mode ∧ InInt16 g.ModeTimeOut ∧ g.Ball.InRange ∧ g.BallSpeed.InRange ∧
    g.LeftPlayerPaddle.InRange ∧ g.RightPlayerPaddle.InRange ∧ g.Tick < 2 ^ 64 ∧
    InInt32 g.Height ∧ InInt32 g.Width ∧ InInt32 g.LeftPlayerScore ∧
    InInt32 g.RightPlayerScore ∧ InInt8 g.Debug

end NetPongTerm

namespace NetPongTerm

section GameSpec

variable {F : Type} [TickModel F]

/-- Both paddle sizes lie between `minPaddleSize` and `maxPaddleSize`. -/
def PaddleSizesOk (g : GameState F) : Prop :=
  minPaddleSize ≤ g.LeftPlayerPaddle.Size ∧ g.LeftPlayerPaddle.Size ≤ maxPaddleSize ∧
    minPaddleSize ≤ g.RightPlayerPaddle.Size ∧ g.RightPlayerPaddle.Size ≤ maxPaddleSize

/-- The two paddle sizes add up to at most 14: a paddle grows only while the
other one shrinks or is at `minPaddleSize`. -/
def PaddleSumOk (g : GameState F) : Prop :=
  g.LeftPlayerPaddle.Size + g.RightPlayerPaddle.Size ≤ 14

/-- The ball rectangle lies inside the field. -/
def BallInField (g : GameState F) : Prop :=
  0 ≤ g.Ball.X ∧ g.Ball.X + g.Ball.Width ≤ g.Width ∧
    0 ≤ g.Ball.Y ∧ g.Ball.Y + g.Ball.Height ≤ g.Height

/-- The states the server can reach from `NewGameState(width, height)` by
calls of `Update` and `MovePaddle` (the two calls of its loop). -/
inductive Reachable (width height : Int) : GameState F → Prop where
  | init (debugFlag : Bool) : Reachable width height (NewGameState debugFlag width height)
  | update {g : GameState F} : Reachable width height g → Reachable width height (Update g)
  | move {g : GameState F} (m : PaddleMovement) :
      Reachable width height g → Reachable width height (MovePaddle g m)

/-- The states reachable from `NewGameState(width, height)` by calls of
`Update`, `MovePaddle` and `EnterMode` with any argument. -/
inductive ReachableWithEnterMode (width height : Int) : GameState F → Prop where
  | init (debugFlag : Bool) :
      ReachableWithEnterMode width height (NewGameState debugFlag width height)
  | update {g : GameState F} :
      ReachableWithEnterMode width height g → ReachableWithEnterMode width height (Update g)
  | move {g : GameState F} (m : PaddleMovement) :
      ReachableWithEnterMode width height g →
        ReachableWithEnterMode width height (MovePaddle g m)
  | enter {g : GameState F} (mode : Int) :
      ReachableWithEnterMode width height g →
        ReachableWithEnterMode width height (EnterMode g mode)

/-- The part of the invariant of the reachable states that holds at every
point of `Update`: the field and ball sizes, the unit speeds, the paddle
columns, sizes and rows, the ball column, and the ball pinned to the loser's
row during a pause. -/
structure CourtInv (width height : Int) (g : GameState F) : Prop where
  width_eq : g.Width = width
  height_eq : g.Height = height
  ball_width : g.Ball.Width = 2
  ball_height : g.Ball.Height = 1
  speed_x : g.BallSpeed.X = 1 ∨ g.BallSpeed.X = -1
  speed_y : g.BallSpeed.Y = 1 ∨ g.BallSpeed.Y = -1
  left_x : g.LeftPlayerPaddle.X = 1
  right_x : g.RightPlayerPaddle.X = width - 2
  left_size : 4 ≤ g.LeftPlayerPaddle.Size ∧ g.LeftPlayerPaddle.Size ≤ 10
  right_size : 4 ≤ g.RightPlayerPaddle.Size ∧ g.RightPlayerPaddle.Size ≤ 10
  left_y : 2 ≤ g.LeftPlayerPaddle.Y ∧ g.LeftPlayerPaddle.Y ≤ height - 2
  right_y : 2 ≤ g.RightPlayerPaddle.Y ∧ g.RightPlayerPaddle.Y ≤ height - 2
  ball_x : 2 ≤ g.Ball.X ∧ g.Ball.X ≤ width - 4
  mode :
    g.Mode = GameModePlaying ∨
    (g.Mode = GameModeLeftPlayerLoosed ∧ g.Ball.Y = g.LeftPlayerPaddle.Y ∧
      0 ≤ g.ModeTimeOut ∧ g.ModeTimeOut ≤ 12) ∨
    (g.Mode = GameModeRightPlayerLoosed ∧ g.Ball.Y = g.RightPlayerPaddle.Y ∧
      0 ≤ g.ModeTimeOut ∧ g.ModeTimeOut ≤ 12)

/-- The invariant of the states reachable by `Update` and `MovePaddle` in a
field of `width` by `height`: `CourtInv`, the ball row inside the field, and a
ball on the last row moving up. -/
structure GameInv (width height : Int) (g : GameState F) : Prop where
  court : CourtInv width height g
  ball_y : 0 ≤ g.Ball.Y ∧ g.Ball.Y ≤ height - 1
  ball_top : g.Ball.Y = height - 1 → g.BallSpeed.Y = -1

/-- The invariant between the paddle columns and the walls (between lines 187
and 189 of `Update`): the ball may be one row above the field, and a ball on
the last row is moving down. -/
structure MidInv (width height : Int) (g : GameState F) : Prop where
  court : CourtInv width height g
  ball_y : -1 ≤ g.Ball.Y ∧ g.Ball.Y ≤ height - 1
  ball_top : g.Ball.Y = height - 1 → g.BallSpeed.Y = 1

end GameSpec

end NetPongTerm

namespace NetPongTerm

/-! ## Example data -/

/-- The three clients of the layout example: window heights 20, 24, 18 and
window widths 40, 40, 40, registered in this order. -/
def exampleClients : List ClientConn :=
  [{ Addr := 0, WindowSettings := { Width := 40, Height := 20, Last := 0 },
     ViewSettings := { XOffset := 0, Height := 0, Width := 0, ControlledPaddle := 0 } },
   { Addr := 1, WindowSettings := { Width := 40, Height := 24, Last := 0 },
     ViewSettings := { XOffset := 0, Height := 0, Width := 0, ControlledPaddle := 0 } },
   { Addr := 2, WindowSettings := { Width := 40, Height := 18, Last := 1 },
     ViewSettings := { XOffset := 0, Height := 0, Width := 0, ControlledPaddle := 0 } }]

/-- A game in a field of 20 by 20: the right paddle is moved down by 6, then 25
ticks pass.  The ball is then at `(2, 8)`
moving by `(-1, -1)`, one tick before it reaches the left paddle column. -/
def exampleGame : GameState Float64 :=
  UpdateN 25 (MovePaddle (NewGameState false 20 20)
    { RelativeY := 6, Player := MoveRightPaddle })

/-- A state sent over the wire during a pause, with paddle sizes at the two
bounds; the tick is the bit pattern of 70.0. -/
def exampleWireState : GameState Float64 :=
  { Mode := 1, ModeTimeOut := 12, Ball := { X := 2, Y := 10, Width := 2, Height := 1 }
    BallSpeed := { X := 1, Y := -1 }
    LeftPlayerPaddle := { X := 1, Y := 10, Size := 10 }
    RightPlayerPaddle := { X := 18, Y := 16, Size := 4 }
    Tick := 4634626229029306368, Height := 20, Width := 20
    LeftPlayerScore := 0, RightPlayerScore := 1, Debug := 0 }

end NetPongTerm

/-! ## Theorems -/

set_option linter.unusedVariables false
set_option linter.unusedSectionVars false

namespace NetPongTerm

/-! ## Lemmas: the wire codec -/

theorem putUint_length (n v : Nat) : (putUint n v).length = n := by
  induction n generalizing v with
  | zero => rfl
  | succ n ih => simp [putUint, ih]

theorem getUint_putUint (n v : Nat) : getUint (putUint n v) = v % 256 ^ n := by
  induction n generalizing v with
  | zero => simp [putUint, getUint, Nat.mod_one]
  | succ n ih =>
    simp only [putUint, getUint, ih]
    rw [pow_succ, Nat.mul_comm (256 ^ n) 256, Nat.mod_mul]

theorem take_putUint_append (n v : Nat) (r : List Byte) :
    (putUint n v ++ r).take n = putUint n v := by
  rw [List.take_append_of_le_length (by rw [putUint_length])]
  exact List.take_of_length_le (by rw [putUint_length])

theorem drop_putUint_append (n v : Nat) (r : List Byte) :
    (putUint n v ++ r).drop n = r := by
  have h := List.drop_left (putUint n v) r
  rwa [putUint_length] at h


theorem takeInt8_put (x : Int) (r : List Byte) (h : InInt8 x) :
    takeInt8 (putInt8 x ++ r) = (x, r) := by
  unfold takeInt8 putInt8
  rw [take_putUint_append, drop_putUint_append, getUint_putUint]
  unfold InInt8 at h
  unfold wrap8
  refine Prod.ext ?_ rfl
  show _ = x
  omega

theorem takeInt16_put (x : Int) (r : List Byte) (h : InInt16 x) :
    takeInt16 (putInt16 x ++ r) = (x, r) := by
  unfold takeInt16 putInt16
  rw [take_putUint_append, drop_putUint_append, getUint_putUint]
  have e : (256 : Nat) ^ 2 = 65536 := by norm_num
  rw [e]
  unfold InInt16 at h
  unfold wrap16
  refine Prod.ext ?_ rfl
  show _ = x
  omega

theorem takeInt32_put (x : Int) (r : List Byte) (h : InInt32 x) :
    takeInt32 (putInt32 x ++ r) = (x, r) := by
  unfold takeInt32 putInt32
  rw [take_putUint_append, drop_putUint_append, getUint_putUint]
  have e : (256 : Nat) ^ 4 = 4294967296 := by norm_num
  rw [e]
  unfold InInt32 at h
  unfold wrap32
  refine Prod.ext ?_ rfl
  show _ = x
  omega

theorem takeInt64_put (x : Int) (r : List Byte) (h : InInt64 x) :
    takeInt64 (putInt64 x ++ r) = (x, r) := by
  unfold takeInt64 putInt64
  rw [take_putUint_append, drop_putUint_append, getUint_putUint]
  have e : (256 : Nat) ^ 8 = 18446744073709551616 := by norm_num
  rw [e]
  unfold InInt64 at h
  unfold wrap64
  refine Prod.ext ?_ rfl
  show _ = x
  omega

theorem takeFloat64_put (x : Float64) (r : List Byte) (h : x < 2 ^ 64) :
    takeFloat64 (putFloat64 x ++ r) = (x, r) := by
  unfold takeFloat64 putFloat64
  rw [take_putUint_append, drop_putUint_append, getUint_putUint]
  have e : (256 : Nat) ^ 8 = 2 ^ 64 := by norm_num
  rw [e, Nat.mod_eq_of_lt h]

end NetPongTerm

namespace NetPongTerm

theorem decodePacketHeader_encode (h : PacketHeader) (r : List Byte)
    (h1 : InInt64 h.MagicKey) (h2 : InInt8 h.Type_) :
    decodePacketHeader (encodePacketHeader h ++ r) = (h, r) := by
  simp only [decodePacketHeader, encodePacketHeader, List.append_assoc,
    takeInt64_put _ _ h1, takeInt8_put _ _ h2]

theorem decodeWindowSettings_encode (p : WindowSettings) (r : List Byte) (h : p.InRange) :
    decodeWindowSettings (encodeWindowSettings p ++ r) = (p, r) := by
  obtain ⟨h1, h2, h3⟩ := h
  simp only [decodeWindowSettings, encodeWindowSettings, List.append_assoc,
    takeInt32_put _ _ h1, takeInt32_put _ _ h2, takeInt8_put _ _ h3]

theorem decodeViewSettings_encode (p : ViewSettings) (r : List Byte) (h : p.InRange) :
    decodeViewSettings (encodeViewSettings p ++ r) = (p, r) := by
  obtain ⟨h1, h2, h3, h4⟩ := h
  simp only [decodeViewSettings, encodeViewSettings, List.append_assoc,
    takeInt32_put _ _ h1, takeInt32_put _ _ h2, takeInt32_put _ _ h3, takeInt8_put _ _ h4]

theorem decodePaddleMovement_encode (p : PaddleMovement) (r : List Byte) (h : p.InRange) :
    decodePaddleMovement (encodePaddleMovement p ++ r) = (p, r) := by
  obtain ⟨h1, h2⟩ := h
  simp only [decodePaddleMovement, encodePaddleMovement, List.append_assoc,
    takeInt32_put _ _ h1, takeInt8_put _ _ h2]

theorem decodeBall_encode (b : Ball) (r : List Byte) (h : b.InRange) :
    decodeBall (encodeBall b ++ r) = (b, r) := by
  obtain ⟨h1, h2, h3, h4⟩ := h
  simp only [decodeBall, encodeBall, List.append_assoc,
    takeInt32_put _ _ h1, takeInt32_put _ _ h2, takeInt32_put _ _ h3, takeInt32_put _ _ h4]

theorem decodeBallSpeed_encode (b : BallSpeed) (r : List Byte) (h : b.InRange) :
    decodeBallSpeed (encodeBallSpeed b ++ r) = (b, r) := by
  obtain ⟨h1, h2⟩ := h
  simp only [decodeBallSpeed, encodeBallSpeed, List.append_assoc,
    takeInt32_put _ _ h1, takeInt32_put _ _ h2]

theorem decodePaddle_encode (p : Paddle) (r : List Byte) (h : p.InRange) :
    decodePaddle (encodePaddle p ++ r) = (p, r) := by
  obtain ⟨h1, h2, h3⟩ := h
  simp only [decodePaddle, encodePaddle, List.append_assoc,
    takeInt32_put _ _ h1, takeInt32_put _ _ h2, takeInt32_put _ _ h3]

theorem decodeGameState_encode (g : GameState Float64) (r : List Byte) (h : g.InRange) :
    decodeGameState (encodeGameState g ++ r) = (g, r) := by
  obtain ⟨h1, h2, h3, h4, h5, h6, h7, h8, h9, h10, h11, h12⟩ := h
  simp only [decodeGameState, encodeGameState, List.append_assoc,
    takeInt8_put _ _ h1, takeInt16_put _ _ h2, decodeBall_encode _ _ h3,
    decodeBallSpeed_encode _ _ h4, decodePaddle_encode _ _ h5, decodePaddle_encode _ _ h6,
    takeFloat64_put _ _ h7, takeInt32_put _ _ h8, takeInt32_put _ _ h9,
    takeInt32_put _ _ h10, takeInt32_put _ _ h11, takeInt8_put _ _ h12]

theorem encodePacketHeader_length (h : PacketHeader) :
    (encodePacketHeader h).length = 9 := by
  simp [encodePacketHeader, putInt64, putInt8, putUint_length]

theorem encodeWindowSettings_length (p : WindowSettings) :
    (encodeWindowSettings p).length = 9 := by
  simp [encodeWindowSettings, putInt32, putInt8, putUint_length]

theorem encodeViewSettings_length (p : ViewSettings) :
    (encodeViewSettings p).length = 13 := by
  simp [encodeViewSettings, putInt32, putInt8, putUint_length]

theorem encodePaddleMovement_length (p : PaddleMovement) :
    (encodePaddleMovement p).length = 5 := by
  simp [encodePaddleMovement, putInt32, putInt8, putUint_length]

theorem encodeGameState_length (g : GameState Float64) :
    (encodeGameState g).length = 76 := by
  simp [encodeGameState, encodeBall, encodeBallSpeed, encodePaddle, putInt32, putInt16,
    putInt8, putFloat64, putUint_length]

theorem readFull_append (n : Nat) (a r : List Byte) (h : a.length = n) :
    readFull n (a ++ r) = .ok (a, r) := by
  subst h
  simp [readFull]

theorem recvBuffer_of_short (d : List Byte) (h : d.length ≤ 1024) :
    recvBuffer d = d ++ List.replicate (1024 - d.length) 0 := by
  unfold recvBuffer
  rw [List.take_of_length_le h]


theorem checkAndRead_ok (h : PacketHeader) (reader : List Byte) (hk : h.MagicKey = MagicKey) :
    checkAndRead h reader = readPayload h reader := by
  unfold checkAndRead PacketHeader.Check
  rw [if_neg (not_not.2 hk)]

theorem checkAndRead_bad (h : PacketHeader) (reader : List Byte) (hk : h.MagicKey ≠ MagicKey) :
    checkAndRead h reader = .error Error.ErrInvalidMagicKey := by
  unfold checkAndRead PacketHeader.Check
  rw [if_pos hk]

theorem ReadPacket_of_readFull (datagram hb reader : List Byte)
    (h : readFull sizePacketHeader (recvBuffer datagram) = .ok (hb, reader)) :
    ReadPacket datagram = checkAndRead (decodePacketHeader hb).1 reader := by
  unfold ReadPacket
  rw [h]


/-- What `ReadPacket` does with a datagram made of an encoded header carrying
the magic constant and a payload `body` of at most 1015 bytes: the payload is
read from `body` followed by the zeros of the buffer. -/
theorem ReadPacket_header (t : Int) (ht : InInt8 t) (body : List Byte)
    (hb : body.length ≤ 1015) :
    ReadPacket (encodePacketHeader { MagicKey := MagicKey, Type_ := t } ++ body) =
      readPayload { MagicKey := MagicKey, Type_ := t }
        (body ++ List.replicate (1015 - body.length) 0) := by
  have hlen : (encodePacketHeader { MagicKey := MagicKey, Type_ := t } ++ body).length =
      9 + body.length := by
    rw [List.length_append, encodePacketHeader_length]
  have hm : InInt64 MagicKey := by unfold InInt64 MagicKey; constructor <;> norm_num
  have hd := decodePacketHeader_encode { MagicKey := MagicKey, Type_ := t } [] hm ht
  rw [List.append_nil] at hd
  have e : 1024 - (9 + body.length) = 1015 - body.length := by omega
  have hr : readFull sizePacketHeader
      (recvBuffer (encodePacketHeader { MagicKey := MagicKey, Type_ := t } ++ body)) =
      .ok (encodePacketHeader { MagicKey := MagicKey, Type_ := t },
        body ++ List.replicate (1015 - body.length) 0) := by
    rw [recvBuffer_of_short _ (by rw [hlen]; omega), hlen, e, List.append_assoc]
    exact readFull_append sizePacketHeader _ _ (encodePacketHeader_length _)
  rw [ReadPacket_of_readFull _ _ _ hr, hd]
  exact checkAndRead_ok _ _ rfl

theorem readPayload_windowSettings (h : PacketHeader) (ht : h.Type_ = WindowSettingsPacket)
    (p : WindowSettings) (r : List Byte) (hp : p.InRange) :
    readPayload h (encodeWindowSettings p ++ r) = .ok (h, Packet.windowSettings p) := by
  have hd := decodeWindowSettings_encode p [] hp
  rw [List.append_nil] at hd
  unfold readPayload
  rw [if_pos ht, readFull_append sizeWindowSettings _ _ (encodeWindowSettings_length p)]
  simp only [hd]

theorem readPayload_viewSettings (h : PacketHeader) (ht : h.Type_ = ViewSettingsPacket)
    (p : ViewSettings) (r : List Byte) (hp : p.InRange) :
    readPayload h (encodeViewSettings p ++ r) = .ok (h, Packet.viewSettings p) := by
  have hd := decodeViewSettings_encode p [] hp
  rw [List.append_nil] at hd
  unfold readPayload
  rw [if_neg (show ¬ h.Type_ = WindowSettingsPacket by rw [ht]; decide), if_pos ht,
    readFull_append sizeViewSettings _ _ (encodeViewSettings_length p)]
  simp only [hd]

theorem readPayload_gameState (h : PacketHeader) (ht : h.Type_ = GameStatePacket)
    (p : GameState Float64) (r : List Byte) (hp : p.InRange) :
    readPayload h (encodeGameState p ++ r) = .ok (h, Packet.gameState p) := by
  have hd := decodeGameState_encode p [] hp
  rw [List.append_nil] at hd
  unfold readPayload
  rw [if_neg (show ¬ h.Type_ = WindowSettingsPacket by rw [ht]; decide),
    if_neg (show ¬ h.Type_ = ViewSettingsPacket by rw [ht]; decide), if_pos ht,
    readFull_append sizeGameState _ _ (encodeGameState_length p)]
  simp only [hd]

theorem readPayload_paddleMovement (h : PacketHeader) (ht : h.Type_ = PaddleMovementPacket)
    (p : PaddleMovement) (r : List Byte) (hp : p.InRange) :
    readPayload h (encodePaddleMovement p ++ r) = .ok (h, Packet.paddleMovement p) := by
  have hd := decodePaddleMovement_encode p [] hp
  rw [List.append_nil] at hd
  unfold readPayload
  rw [if_neg (show ¬ h.Type_ = WindowSettingsPacket by rw [ht]; decide),
    if_neg (show ¬ h.Type_ = ViewSettingsPacket by rw [ht]; decide),
    if_neg (show ¬ h.Type_ = GameStatePacket by rw [ht]; decide), if_pos ht,
    readFull_append sizePaddleMovement _ _ (encodePaddleMovement_length p)]
  simp only [hd]

end NetPongTerm

namespace NetPongTerm

theorem getUint_lt (bs : List Byte) : getUint bs < 256 ^ bs.length := by
  induction bs with
  | nil => simp [getUint]
  | cons b bs ih =>
    have hb := b.isLt
    simp only [getUint, List.length_cons, pow_succ]
    omega

theorem putUint_getUint (bs : List Byte) : putUint bs.length (getUint bs) = bs := by
  induction bs with
  | nil => rfl
  | cons b bs ih =>
    have hb := b.isLt
    have h1 : (b.val + 256 * getUint bs) % 256 = b.val := by omega
    have h2 : (b.val + 256 * getUint bs) / 256 = getUint bs := by omega
    simp only [getUint, List.length_cons, putUint, h2, ih]
    congr 1
    exact Fin.ext h1

theorem recvBuffer_length (d : List Byte) : (recvBuffer d).length = 1024 := by
  unfold recvBuffer
  simp only [List.length_append, List.length_replicate, List.length_take]
  omega

theorem putInt64_MagicKey : putInt64 MagicKey = putUint 8 583276045987 := by
  unfold putInt64 MagicKey
  rfl

/-- The magic key read from a buffer equals the constant only when the first
eight bytes are its little-endian encoding. -/
theorem magic_of_header (bs : List Byte) (hl : bs.length = 8)
    (h : wrap64 (getUint bs) = MagicKey) : bs = putInt64 MagicKey := by
  have hlt := getUint_lt bs
  rw [hl] at hlt
  have e : (256 : Nat) ^ 8 = 18446744073709551616 := by norm_num
  rw [e] at hlt
  have hv : getUint bs = 583276045987 := by
    unfold wrap64 MagicKey at h
    omega
  have hp := putUint_getUint bs
  rw [hl, hv] at hp
  rw [putInt64_MagicKey, hp]

/-- **C1** Packet round trip.  For every message of each of the four variants
(`WindowSettings`, `ViewSettings`, `GameState`, `PaddleMovement`) whose fields
hold values of their Go types, `SendPacket` succeeds, and `ReadPacket` on the
datagram it sends succeeds and returns the header with the magic constant and
the tag of the variant (0, 1, 2, 3) together with a payload equal to the
message. -/
theorem packet_round_trip :
    (∀ p : WindowSettings, p.InRange →
      ∃ bytes, SendPacket (Packet.windowSettings p) = .ok bytes ∧
        ReadPacket bytes =
          .ok ({ MagicKey := MagicKey, Type_ := 0 }, Packet.windowSettings p)) ∧
    (∀ p : ViewSettings, p.InRange →
      ∃ bytes, SendPacket (Packet.viewSettings p) = .ok bytes ∧
        ReadPacket bytes =
          .ok ({ MagicKey := MagicKey, Type_ := 1 }, Packet.viewSettings p)) ∧
    (∀ p : GameState Float64, p.InRange →
      ∃ bytes, SendPacket (Packet.gameState p) = .ok bytes ∧
        ReadPacket bytes =
          .ok ({ MagicKey := MagicKey, Type_ := 2 }, Packet.gameState p)) ∧
    (∀ p : PaddleMovement, p.InRange →
      ∃ bytes, SendPacket (Packet.paddleMovement p) = .ok bytes ∧
        ReadPacket bytes =
          .ok ({ MagicKey := MagicKey, Type_ := 3 }, Packet.paddleMovement p)) := by
  refine ⟨fun p hp => ⟨_, rfl, ?_⟩, fun p hp => ⟨_, rfl, ?_⟩, fun p hp => ⟨_, rfl, ?_⟩,
    fun p hp => ⟨_, rfl, ?_⟩⟩
  · rw [ReadPacket_header _ (by decide) _ (by rw [encodeWindowSettings_length]; omega)]
    exact readPayload_windowSettings _ rfl p _ hp
  · rw [ReadPacket_header _ (by decide) _ (by rw [encodeViewSettings_length]; omega)]
    exact readPayload_viewSettings _ rfl p _ hp
  · rw [ReadPacket_header _ (by decide) _ (by rw [encodeGameState_length]; omega)]
    exact readPayload_gameState _ rfl p _ hp
  · rw [ReadPacket_header _ (by decide) _ (by rw [encodePaddleMovement_length]; omega)]
    exact readPayload_paddleMovement _ rfl p _ hp

/-- **C7** Magic-key rejection.  Whenever the first eight bytes of the receive
buffer are not the little-endian encoding of the magic constant 583276045987,
`ReadPacket` fails with `ErrInvalidMagicKey` (and so returns no message),
whatever the type tag and the remaining bytes are. -/
theorem magic_key_rejection (datagram : List Byte)
    (h : (recvBuffer datagram).take 8 ≠ putInt64 MagicKey) :
    ReadPacket datagram = .error Error.ErrInvalidMagicKey := by
  have hl := recvBuffer_length datagram
  have hr : readFull sizePacketHeader (recvBuffer datagram) =
      .ok ((recvBuffer datagram).take 9, (recvBuffer datagram).drop 9) := by
    unfold readFull sizePacketHeader
    rw [if_pos (by rw [hl]; decide)]
  have hk : (decodePacketHeader ((recvBuffer datagram).take 9)).1.MagicKey ≠ MagicKey := by
    intro hw
    have h8 : ((recvBuffer datagram).take 9).take 8 = (recvBuffer datagram).take 8 := by
      rw [List.take_take]
      rfl
    have hw2 : wrap64 (getUint ((recvBuffer datagram).take 8)) = MagicKey := by
      rw [← h8]
      exact hw
    exact h (magic_of_header _ (by rw [List.length_take, hl]; rfl) hw2)
  rw [ReadPacket_of_readFull _ _ _ hr]
  exact checkAndRead_bad _ _ hk

end NetPongTerm

namespace NetPongTerm

/-- Claim C1, witness: one message of each variant, with a zero field, a
negative delta and the two bounds of the paddle size. -/
theorem packet_round_trip_witness :
    (WindowSettings.InRange { Width := 80, Height := 24, Last := 1 } ∧
      ∃ bytes, SendPacket (Packet.windowSettings { Width := 80, Height := 24, Last := 1 }) =
          .ok bytes ∧
        ReadPacket bytes = .ok ({ MagicKey := MagicKey, Type_ := 0 },
          Packet.windowSettings { Width := 80, Height := 24, Last := 1 })) ∧
    (ViewSettings.InRange { XOffset := 0, Height := 0, Width := 0, ControlledPaddle := 0 } ∧
      ∃ bytes, SendPacket (Packet.viewSettings
          { XOffset := 0, Height := 0, Width := 0, ControlledPaddle := 0 }) = .ok bytes ∧
        ReadPacket bytes = .ok ({ MagicKey := MagicKey, Type_ := 1 },
          Packet.viewSettings { XOffset := 0, Height := 0, Width := 0, ControlledPaddle := 0 })) ∧
    (GameState.InRange exampleWireState ∧
      ∃ bytes, SendPacket (Packet.gameState exampleWireState) = .ok bytes ∧
        ReadPacket bytes =
          .ok ({ MagicKey := MagicKey, Type_ := 2 }, Packet.gameState exampleWireState)) ∧
    (PaddleMovement.InRange { RelativeY := -1, Player := 2 } ∧
      ∃ bytes, SendPacket (Packet.paddleMovement { RelativeY := -1, Player := 2 }) = .ok bytes ∧
        ReadPacket bytes = .ok ({ MagicKey := MagicKey, Type_ := 3 },
          Packet.paddleMovement { RelativeY := -1, Player := 2 })) :=
  have h1 : WindowSettings.InRange { Width := 80, Height := 24, Last := 1 } := by
    unfold WindowSettings.InRange; decide
  have h2 : ViewSettings.InRange
      { XOffset := 0, Height := 0, Width := 0, ControlledPaddle := 0 } := by
    unfold ViewSettings.InRange; decide
  have h3 : GameState.InRange exampleWireState := by
    unfold GameState.InRange Ball.InRange BallSpeed.InRange Paddle.InRange; decide
  have h4 : PaddleMovement.InRange { RelativeY := -1, Player := 2 } := by
    unfold PaddleMovement.InRange; decide
  ⟨⟨h1, packet_round_trip.1 _ h1⟩, ⟨h2, packet_round_trip.2.1 _ h2⟩,
    ⟨h3, packet_round_trip.2.2.1 _ h3⟩, ⟨h4, packet_round_trip.2.2.2 _ h4⟩⟩

/-- Claim C7, witness: a datagram of three bytes. -/
theorem magic_key_rejection_witness :
    (recvBuffer [1, 2, 3]).take 8 ≠ putInt64 MagicKey ∧
      ReadPacket [1, 2, 3] = .error Error.ErrInvalidMagicKey :=
  ⟨by decide, magic_key_rejection [1, 2, 3] (by decide)⟩

end NetPongTerm

namespace NetPongTerm

section GameLemmas

variable {F : Type} [TickModel F]

theorem EnterMode_lost_mode (g : GameState F) (mode : Int)
    (hm : mode = GameModeLeftPlayerLoosed ∨ mode = GameModeRightPlayerLoosed) :
    (EnterMode g mode).Mode = mode ∧ (EnterMode g mode).ModeTimeOut = 12 := by
  rcases hm with rfl | rfl <;>
  · simp only [EnterMode, GameModePlaying, GameModeLeftPlayerLoosed, GameModeRightPlayerLoosed,
      playerLooseModeTimeOut]
    split_ifs <;> simp_all

/-- One `Update` in a lost mode with a positive timeout stays in the mode and
decrements the timeout. -/
theorem Update_lost_pos (g : GameState F)
    (hm : g.Mode = GameModeLeftPlayerLoosed ∨ g.Mode = GameModeRightPlayerLoosed)
    (h1 : 1 ≤ g.ModeTimeOut) (h2 : g.ModeTimeOut ≤ 12) :
    (Update g).Mode = g.Mode ∧ (Update g).ModeTimeOut = g.ModeTimeOut - 1 := by
  have hw : wrap16 (g.ModeTimeOut - 1) = g.ModeTimeOut - 1 := by unfold wrap16; omega
  rcases hm with hm | hm <;>
  · simp only [Update, lostStep, hm, hw, GameModePlaying, GameModeLeftPlayerLoosed,
      GameModeRightPlayerLoosed]
    have : ¬ g.ModeTimeOut - 1 < 0 := by omega
    simp [this]

/-- One `Update` in a lost mode with timeout zero resumes play. -/
theorem Update_lost_zero (g : GameState F)
    (hm : g.Mode = GameModeLeftPlayerLoosed ∨ g.Mode = GameModeRightPlayerLoosed)
    (h0 : g.ModeTimeOut = 0) :
    (Update g).Mode = GameModePlaying := by
  have hw : wrap16 (g.ModeTimeOut - 1) = -1 := by rw [h0]; decide
  rcases hm with hm | hm <;>
  · simp [Update, lostStep, hm, hw, EnterMode, GameModePlaying, GameModeLeftPlayerLoosed,
      GameModeRightPlayerLoosed]

theorem UpdateN_lost (n : Nat) (g : GameState F)
    (hm : g.Mode = GameModeLeftPlayerLoosed ∨ g.Mode = GameModeRightPlayerLoosed)
    (h1 : (n : Int) ≤ g.ModeTimeOut) (h2 : g.ModeTimeOut ≤ 12) :
    (UpdateN n g).Mode = g.Mode ∧ (UpdateN n g).ModeTimeOut = g.ModeTimeOut - n := by
  induction n generalizing g with
  | zero => simp [UpdateN]
  | succ n ih =>
    have hu := Update_lost_pos g hm (by omega) h2
    have := ih (Update g) (by rw [hu.1]; exact hm) (by rw [hu.2]; omega) (by rw [hu.2]; omega)
    simp only [UpdateN]
    rw [this.1, this.2, hu.1, hu.2]
    constructor
    · rfl
    · push_cast; omega

theorem UpdateN_succ (n : Nat) (g : GameState F) :
    UpdateN (n + 1) g = Update (UpdateN n g) := by
  induction n generalizing g with
  | zero => rfl
  | succ n ih => rw [UpdateN, ih]; rfl

/-- Claim C8: Point-pause length.  From any game state, after
`EnterMode(GameModeLeftPlayerLoosed)` and with no `MovePaddle` call, the mode is
still `GameModeLeftPlayerLoosed` after `n` calls of `Update` for every
`n ≤ 12`, and it is `GameModePlaying` after 13 calls; the same holds for
`GameModeRightPlayerLoosed`. -/
theorem point_pause_length (g : GameState F) :
    (∀ n : Nat, n ≤ 12 →
      (UpdateN n (EnterMode g GameModeLeftPlayerLoosed)).Mode = GameModeLeftPlayerLoosed) ∧
    (UpdateN 13 (EnterMode g GameModeLeftPlayerLoosed)).Mode = GameModePlaying ∧
    (∀ n : Nat, n ≤ 12 →
      (UpdateN n (EnterMode g GameModeRightPlayerLoosed)).Mode = GameModeRightPlayerLoosed) ∧
    (UpdateN 13 (EnterMode g GameModeRightPlayerLoosed)).Mode = GameModePlaying := by
  have key : ∀ mode : Int,
      mode = GameModeLeftPlayerLoosed ∨ mode = GameModeRightPlayerLoosed →
      (∀ n : Nat, n ≤ 12 → (UpdateN n (EnterMode g mode)).Mode = mode) ∧
      (UpdateN 13 (EnterMode g mode)).Mode = GameModePlaying := by
    intro mode hmode
    obtain ⟨he1, he2⟩ := EnterMode_lost_mode g mode hmode
    have hm : (EnterMode g mode).Mode = GameModeLeftPlayerLoosed ∨
        (EnterMode g mode).Mode = GameModeRightPlayerLoosed := by rw [he1]; exact hmode
    constructor
    · intro n hn
      have := UpdateN_lost n (EnterMode g mode) hm (by rw [he2]; omega) (by rw [he2])
      rw [this.1, he1]
    · have h12 := UpdateN_lost 12 (EnterMode g mode) hm (by rw [he2]; norm_num) (by rw [he2])
      rw [UpdateN_succ]
      apply Update_lost_zero
      · rw [h12.1]; exact hm
      · rw [h12.2, he2]; norm_num
  exact ⟨(key _ (Or.inl rfl)).1, (key _ (Or.inl rfl)).2, (key _ (Or.inr rfl)).1,
    (key _ (Or.inr rfl)).2⟩

end GameLemmas

end NetPongTerm

namespace NetPongTerm

section GameLemmas2

variable {F : Type} [TickModel F]

theorem GameInv_init (debugFlag : Bool) (width height : Int)
    (hw : 10 ≤ width) (hw2 : InInt32 width) (hh : 10 ≤ height) (hh2 : InInt32 height) :
    GameInv width height (NewGameState debugFlag width height : GameState F) := by
  unfold InInt32 at hw2 hh2
  have e : Int.tdiv height 2 = height / 2 := Int.tdiv_eq_ediv (by omega) (by omega)
  have e2 : wrap32 (wrap32 (width - 1) - 1) = width - 2 := by unfold wrap32; omega
  refine ⟨?_, ?_, ?_⟩
  · constructor <;>
      simp only [NewGameState, initialBall, initialBallSpeed, paddleMargin, initialPaddleSize,
        GameModePlaying, GameModeLeftPlayerLoosed, GameModeRightPlayerLoosed, e, e2] <;>
      first | omega | simp
  · simp only [NewGameState, initialBall]; omega
  · simp only [NewGameState, initialBall, initialBallSpeed]; omega

/-- The fields `EnterMode` never writes. -/
theorem EnterMode_fields (g : GameState F) (mode : Int) :
    (EnterMode g mode).Ball = g.Ball ∧ (EnterMode g mode).BallSpeed = g.BallSpeed ∧
    (EnterMode g mode).Height = g.Height ∧ (EnterMode g mode).Width = g.Width ∧
    (EnterMode g mode).LeftPlayerPaddle.X = g.LeftPlayerPaddle.X ∧
    (EnterMode g mode).LeftPlayerPaddle.Y = g.LeftPlayerPaddle.Y ∧
    (EnterMode g mode).RightPlayerPaddle.X = g.RightPlayerPaddle.X ∧
    (EnterMode g mode).RightPlayerPaddle.Y = g.RightPlayerPaddle.Y ∧
    (EnterMode g mode).LeftPlayerScore = g.LeftPlayerScore ∧
    (EnterMode g mode).RightPlayerScore = g.RightPlayerScore ∧
    (EnterMode g mode).Debug = g.Debug := by
  simp only [EnterMode]
  split_ifs <;> simp

/-- The explicit paddle sizes after `EnterMode(GameModeLeftPlayerLoosed)`. -/
theorem EnterMode_left_sizes (g : GameState F) :
    (EnterMode g GameModeLeftPlayerLoosed).LeftPlayerPaddle.Size =
      (if g.LeftPlayerPaddle.Size < 10 then wrap32 (g.LeftPlayerPaddle.Size + 1)
       else g.LeftPlayerPaddle.Size) ∧
    (EnterMode g GameModeLeftPlayerLoosed).RightPlayerPaddle.Size =
      (if g.LeftPlayerPaddle.Size < 10 ∧ g.RightPlayerPaddle.Size > 4
       then wrap32 (g.RightPlayerPaddle.Size - 1) else g.RightPlayerPaddle.Size) := by
  simp only [EnterMode, GameModePlaying, GameModeLeftPlayerLoosed, minPaddleSize]
  split_ifs <;> simp_all

/-- The explicit paddle sizes after `EnterMode(GameModeRightPlayerLoosed)`. -/
theorem EnterMode_right_sizes (g : GameState F) :
    (EnterMode g GameModeRightPlayerLoosed).RightPlayerPaddle.Size =
      (if g.RightPlayerPaddle.Size < 10 then wrap32 (g.RightPlayerPaddle.Size + 1)
       else g.RightPlayerPaddle.Size) ∧
    (EnterMode g GameModeRightPlayerLoosed).LeftPlayerPaddle.Size =
      (if g.RightPlayerPaddle.Size < 10 ∧ g.LeftPlayerPaddle.Size > 4
       then wrap32 (g.LeftPlayerPaddle.Size - 1) else g.LeftPlayerPaddle.Size) := by
  simp only [EnterMode, GameModePlaying, GameModeLeftPlayerLoosed, GameModeRightPlayerLoosed,
    minPaddleSize]
  split_ifs <;> simp_all

/-- The sizes after `EnterMode` with a mode that is no lost mode. -/
theorem EnterMode_other_sizes (g : GameState F) (mode : Int)
    (h1 : mode ≠ GameModeLeftPlayerLoosed) (h2 : mode ≠ GameModeRightPlayerLoosed) :
    (EnterMode g mode).LeftPlayerPaddle = g.LeftPlayerPaddle ∧
    (EnterMode g mode).RightPlayerPaddle = g.RightPlayerPaddle := by
  simp only [EnterMode]
  split_ifs <;> simp

/-- The method `EnterMode` keeps both paddle sizes in `[4, 10]`. -/
theorem EnterMode_sizes (g : GameState F) (mode : Int) (h : PaddleSizesOk g) :
    PaddleSizesOk (EnterMode g mode) := by
  unfold PaddleSizesOk minPaddleSize maxPaddleSize at *
  by_cases h1 : mode = GameModeLeftPlayerLoosed
  · subst h1
    obtain ⟨e1, e2⟩ := EnterMode_left_sizes g
    rw [e1, e2]
    unfold wrap32
    split_ifs <;> omega
  · by_cases h2 : mode = GameModeRightPlayerLoosed
    · subst h2
      obtain ⟨e1, e2⟩ := EnterMode_right_sizes g
      rw [e1, e2]
      unfold wrap32
      split_ifs <;> omega
    · obtain ⟨e1, e2⟩ := EnterMode_other_sizes g mode h1 h2
      rw [e1, e2]
      exact h

end GameLemmas2

end NetPongTerm

namespace NetPongTerm

section GameLemmas3

variable {F : Type} [TickModel F]

/-- What the left-paddle branch of `Update` does. -/
theorem leftPaddleBranch_spec (g : GameState F) (hs : PaddleSizesOk g) :
    (leftPaddleBranch g).Height = g.Height ∧ (leftPaddleBranch g).Width = g.Width ∧
    (leftPaddleBranch g).Ball.Width = g.Ball.Width ∧
    (leftPaddleBranch g).Ball.Height = g.Ball.Height ∧
    (leftPaddleBranch g).BallSpeed.Y = g.BallSpeed.Y ∧
    (leftPaddleBranch g).LeftPlayerPaddle.X = g.LeftPlayerPaddle.X ∧
    (leftPaddleBranch g).LeftPlayerPaddle.Y = g.LeftPlayerPaddle.Y ∧
    (leftPaddleBranch g).RightPlayerPaddle.X = g.RightPlayerPaddle.X ∧
    (leftPaddleBranch g).RightPlayerPaddle.Y = g.RightPlayerPaddle.Y ∧
    PaddleSizesOk (leftPaddleBranch g) ∧
    (leftPaddleBranch g).Ball.X = wrap32 (g.LeftPlayerPaddle.X + 1) ∧
    (leftPaddleBranch g).BallSpeed.X = wrap32 (g.BallSpeed.X * -1) ∧
    (((leftPaddleBranch g).Mode = g.Mode ∧ (leftPaddleBranch g).ModeTimeOut = g.ModeTimeOut ∧
        (leftPaddleBranch g).Ball.Y = g.Ball.Y) ∨
      ((leftPaddleBranch g).Mode = GameModeLeftPlayerLoosed ∧
        (leftPaddleBranch g).ModeTimeOut = 12 ∧
        (leftPaddleBranch g).Ball.Y = g.LeftPlayerPaddle.Y)) := by
  by_cases ht : paddleTest g.Ball g.LeftPlayerPaddle
  · have e : leftPaddleBranch g =
        { g with Ball := { g.Ball with X := wrap32 (g.LeftPlayerPaddle.X + 1) }
                 BallSpeed := { g.BallSpeed with X := wrap32 (g.BallSpeed.X * -1) } } := by
      simp only [leftPaddleBranch, if_pos ht]
    rw [e]
    exact ⟨rfl, rfl, rfl, rfl, rfl, rfl, rfl, rfl, rfl, hs, rfl, rfl, Or.inl ⟨rfl, rfl, rfl⟩⟩
  · have e : leftPaddleBranch g =
        (let e1 := EnterMode
            ({ g with RightPlayerScore := wrap32 (g.RightPlayerScore + 1)
                      Ball := { g.Ball with Y := g.LeftPlayerPaddle.Y } } : GameState F)
            GameModeLeftPlayerLoosed
         { e1 with Ball := { e1.Ball with X := wrap32 (e1.LeftPlayerPaddle.X + 1) }
                   BallSpeed := { e1.BallSpeed with X := wrap32 (e1.BallSpeed.X * -1) } }) := by
      simp only [leftPaddleBranch, if_neg ht]
    rw [e]
    dsimp only
    generalize hg0 : ({ g with RightPlayerScore := wrap32 (g.RightPlayerScore + 1)
                               Ball := { g.Ball with Y := g.LeftPlayerPaddle.Y } } : GameState F) =
      g0
    have hs0 : PaddleSizesOk g0 := by subst hg0; exact hs
    obtain ⟨f1, f2, f3, f4, f5, f6, f7, f8, -, -, -⟩ := EnterMode_fields g0 GameModeLeftPlayerLoosed
    obtain ⟨m1, m2⟩ := EnterMode_lost_mode g0 GameModeLeftPlayerLoosed (Or.inl rfl)
    have hs1 := EnterMode_sizes g0 GameModeLeftPlayerLoosed hs0
    refine ⟨?_, ?_, ?_, ?_, ?_, ?_, ?_, ?_, ?_, hs1, ?_, ?_, Or.inr ⟨m1, m2, ?_⟩⟩ <;>
      simp only [f1, f2, f3, f4, f5, f6, f7, f8] <;> subst hg0 <;> rfl

/-- What the right-paddle branch of `Update` does. -/
theorem rightPaddleBranch_spec (g : GameState F) (hs : PaddleSizesOk g) :
    (rightPaddleBranch g).Height = g.Height ∧ (rightPaddleBranch g).Width = g.Width ∧
    (rightPaddleBranch g).Ball.Width = g.Ball.Width ∧
    (rightPaddleBranch g).Ball.Height = g.Ball.Height ∧
    (rightPaddleBranch g).BallSpeed.Y = g.BallSpeed.Y ∧
    (rightPaddleBranch g).LeftPlayerPaddle.X = g.LeftPlayerPaddle.X ∧
    (rightPaddleBranch g).LeftPlayerPaddle.Y = g.LeftPlayerPaddle.Y ∧
    (rightPaddleBranch g).RightPlayerPaddle.X = g.RightPlayerPaddle.X ∧
    (rightPaddleBranch g).RightPlayerPaddle.Y = g.RightPlayerPaddle.Y ∧
    PaddleSizesOk (rightPaddleBranch g) ∧
    (rightPaddleBranch g).Ball.X = wrap32 (g.RightPlayerPaddle.X - g.Ball.Width) ∧
    (rightPaddleBranch g).BallSpeed.X = wrap32 (g.BallSpeed.X * -1) ∧
    (((rightPaddleBranch g).Mode = g.Mode ∧ (rightPaddleBranch g).ModeTimeOut = g.ModeTimeOut ∧
        (rightPaddleBranch g).Ball.Y = g.Ball.Y) ∨
      ((rightPaddleBranch g).Mode = GameModeRightPlayerLoosed ∧
        (rightPaddleBranch g).ModeTimeOut = 12 ∧
        (rightPaddleBranch g).Ball.Y = g.RightPlayerPaddle.Y)) := by
  by_cases ht : paddleTest g.Ball g.RightPlayerPaddle
  · have e : rightPaddleBranch g =
        { g with Ball := { g.Ball with X := wrap32 (g.RightPlayerPaddle.X - g.Ball.Width) }
                 BallSpeed := { g.BallSpeed with X := wrap32 (g.BallSpeed.X * -1) } } := by
      simp only [rightPaddleBranch, if_pos ht]
    rw [e]
    exact ⟨rfl, rfl, rfl, rfl, rfl, rfl, rfl, rfl, rfl, hs, rfl, rfl, Or.inl ⟨rfl, rfl, rfl⟩⟩
  · have e : rightPaddleBranch g =
        (let e1 := EnterMode
            ({ g with LeftPlayerScore := wrap32 (g.LeftPlayerScore + 1)
                      Ball := { g.Ball with Y := g.RightPlayerPaddle.Y } } : GameState F)
            GameModeRightPlayerLoosed
         { e1 with Ball := { e1.Ball with X := wrap32 (e1.RightPlayerPaddle.X - e1.Ball.Width) }
                   BallSpeed := { e1.BallSpeed with X := wrap32 (e1.BallSpeed.X * -1) } }) := by
      simp only [rightPaddleBranch, if_neg ht]
    rw [e]
    dsimp only
    generalize hg0 : ({ g with LeftPlayerScore := wrap32 (g.LeftPlayerScore + 1)
                               Ball := { g.Ball with Y := g.RightPlayerPaddle.Y } } : GameState F) =
      g0
    have hs0 : PaddleSizesOk g0 := by subst hg0; exact hs
    obtain ⟨f1, f2, f3, f4, f5, f6, f7, f8, -, -, -⟩ := EnterMode_fields g0 GameModeRightPlayerLoosed
    obtain ⟨m1, m2⟩ := EnterMode_lost_mode g0 GameModeRightPlayerLoosed (Or.inr rfl)
    have hs1 := EnterMode_sizes g0 GameModeRightPlayerLoosed hs0
    refine ⟨?_, ?_, ?_, ?_, ?_, ?_, ?_, ?_, ?_, hs1, ?_, ?_, Or.inr ⟨m1, m2, ?_⟩⟩ <;>
      simp only [f1, f2, f3, f4, f5, f6, f7, f8] <;> subst hg0 <;> rfl

end GameLemmas3

end NetPongTerm

namespace NetPongTerm

section GameLemmas4

variable {F : Type} [TickModel F]

/-- What the paddle-column step of `Update` does. -/
theorem paddleStep_spec (g : GameState F) (hs : PaddleSizesOk g) :
    (paddleStep g).Height = g.Height ∧ (paddleStep g).Width = g.Width ∧
    (paddleStep g).Ball.Width = g.Ball.Width ∧
    (paddleStep g).Ball.Height = g.Ball.Height ∧
    (paddleStep g).BallSpeed.Y = g.BallSpeed.Y ∧
    (paddleStep g).LeftPlayerPaddle.X = g.LeftPlayerPaddle.X ∧
    (paddleStep g).LeftPlayerPaddle.Y = g.LeftPlayerPaddle.Y ∧
    (paddleStep g).RightPlayerPaddle.X = g.RightPlayerPaddle.X ∧
    (paddleStep g).RightPlayerPaddle.Y = g.RightPlayerPaddle.Y ∧
    PaddleSizesOk (paddleStep g) ∧
    ((g.Ball.X ≤ g.LeftPlayerPaddle.X ∧
        (paddleStep g).Ball.X = wrap32 (g.LeftPlayerPaddle.X + 1) ∧
        (paddleStep g).BallSpeed.X = wrap32 (g.BallSpeed.X * -1) ∧
        (((paddleStep g).Mode = g.Mode ∧ (paddleStep g).ModeTimeOut = g.ModeTimeOut ∧
            (paddleStep g).Ball.Y = g.Ball.Y) ∨
          ((paddleStep g).Mode = GameModeLeftPlayerLoosed ∧ (paddleStep g).ModeTimeOut = 12 ∧
            (paddleStep g).Ball.Y = g.LeftPlayerPaddle.Y))) ∨
      (¬ g.Ball.X ≤ g.LeftPlayerPaddle.X ∧
        wrap32 (g.Ball.X + g.Ball.Width) ≥ g.RightPlayerPaddle.X ∧
        (paddleStep g).Ball.X = wrap32 (g.RightPlayerPaddle.X - g.Ball.Width) ∧
        (paddleStep g).BallSpeed.X = wrap32 (g.BallSpeed.X * -1) ∧
        (((paddleStep g).Mode = g.Mode ∧ (paddleStep g).ModeTimeOut = g.ModeTimeOut ∧
            (paddleStep g).Ball.Y = g.Ball.Y) ∨
          ((paddleStep g).Mode = GameModeRightPlayerLoosed ∧ (paddleStep g).ModeTimeOut = 12 ∧
            (paddleStep g).Ball.Y = g.RightPlayerPaddle.Y))) ∨
      (¬ g.Ball.X ≤ g.LeftPlayerPaddle.X ∧
        ¬ wrap32 (g.Ball.X + g.Ball.Width) ≥ g.RightPlayerPaddle.X ∧ paddleStep g = g)) := by
  unfold paddleStep
  split_ifs with h1 h2
  · obtain ⟨a1, a2, a3, a4, a5, a6, a7, a8, a9, a10, a11, a12, a13⟩ := leftPaddleBranch_spec g hs
    exact ⟨a1, a2, a3, a4, a5, a6, a7, a8, a9, a10, Or.inl ⟨h1, a11, a12, a13⟩⟩
  · obtain ⟨a1, a2, a3, a4, a5, a6, a7, a8, a9, a10, a11, a12, a13⟩ := rightPaddleBranch_spec g hs
    exact ⟨a1, a2, a3, a4, a5, a6, a7, a8, a9, a10, Or.inr (Or.inl ⟨h1, h2, a11, a12, a13⟩)⟩
  · exact ⟨rfl, rfl, rfl, rfl, rfl, rfl, rfl, rfl, rfl, hs, Or.inr (Or.inr ⟨h1, h2, rfl⟩)⟩

/-- What the wall step of `Update` does. -/
theorem wallStep_spec (g : GameState F) :
    (wallStep g).Mode = g.Mode ∧ (wallStep g).ModeTimeOut = g.ModeTimeOut ∧
    (wallStep g).Height = g.Height ∧ (wallStep g).Width = g.Width ∧
    (wallStep g).Ball.X = g.Ball.X ∧ (wallStep g).Ball.Width = g.Ball.Width ∧
    (wallStep g).Ball.Height = g.Ball.Height ∧ (wallStep g).BallSpeed.X = g.BallSpeed.X ∧
    (wallStep g).LeftPlayerPaddle = g.LeftPlayerPaddle ∧
    (wallStep g).RightPlayerPaddle = g.RightPlayerPaddle ∧
    (wallStep g).LeftPlayerScore = g.LeftPlayerScore ∧
    (wallStep g).RightPlayerScore = g.RightPlayerScore ∧
    ((g.Ball.Y ≤ 0 ∧ (wallStep g).Ball.Y = 0 ∧
        (wallStep g).BallSpeed.Y = wrap32 (g.BallSpeed.Y * -1)) ∨
      (¬ g.Ball.Y ≤ 0 ∧ wrap32 (g.Ball.Y + g.Ball.Height) ≥ g.Height ∧
        (wallStep g).Ball.Y = wrap32 (g.Height - g.Ball.Height) ∧
        (wallStep g).BallSpeed.Y = wrap32 (g.BallSpeed.Y * -1)) ∨
      (¬ g.Ball.Y ≤ 0 ∧ ¬ wrap32 (g.Ball.Y + g.Ball.Height) ≥ g.Height ∧ wallStep g = g)) := by
  unfold wallStep
  split_ifs with h1 h2
  · exact ⟨rfl, rfl, rfl, rfl, rfl, rfl, rfl, rfl, rfl, rfl, rfl, rfl, Or.inl ⟨h1, rfl, rfl⟩⟩
  · exact ⟨rfl, rfl, rfl, rfl, rfl, rfl, rfl, rfl, rfl, rfl, rfl, rfl,
      Or.inr (Or.inl ⟨h1, h2, rfl, rfl⟩)⟩
  · exact ⟨rfl, rfl, rfl, rfl, rfl, rfl, rfl, rfl, rfl, rfl, rfl, rfl,
      Or.inr (Or.inr ⟨h1, h2, rfl⟩)⟩

theorem Update_playing (g : GameState F) (hm : g.Mode = GameModePlaying) :
    Update g = tickUpdate (wallStep (paddleStep (advanceBall g))) := by
  simp only [Update, hm, if_true]

/-- After the ball has advanced and the paddle columns are handled, the
intermediate invariant holds. -/
theorem MidInv_paddleStep (width height : Int) (g : GameState F)
    (hw : 10 ≤ width) (hw2 : InInt32 width) (hh : 10 ≤ height) (hh2 : InInt32 height)
    (hg : GameInv width height g) (hm : g.Mode = GameModePlaying) :
    MidInv width height (paddleStep (advanceBall g)) := by
  unfold InInt32 at hw2 hh2
  obtain ⟨⟨h1, h2, h3, h4, h5, h6, h7, h8, h9, h10, h11, h12, h13, -⟩, h14, h15⟩ := hg
  have hsa : PaddleSizesOk (advanceBall g) := by
    unfold PaddleSizesOk minPaddleSize maxPaddleSize advanceBall
    exact ⟨h9.1, h9.2, h10.1, h10.2⟩
  obtain ⟨p1, p2, p3, p4, p5, p6, p7, p8, p9, p10, p11⟩ := paddleStep_spec (advanceBall g) hsa
  have a1 : (advanceBall g).Ball.X = wrap32 (g.Ball.X + g.BallSpeed.X) := rfl
  have a2 : (advanceBall g).Ball.Y = wrap32 (g.Ball.Y + g.BallSpeed.Y) := rfl
  have a3 : (advanceBall g).Ball.Width = g.Ball.Width := rfl
  have a4 : (advanceBall g).Ball.Height = g.Ball.Height := rfl
  have a5 : (advanceBall g).BallSpeed.X = g.BallSpeed.X := rfl
  have a6 : (advanceBall g).BallSpeed.Y = g.BallSpeed.Y := rfl
  have a7 : (advanceBall g).LeftPlayerPaddle.X = g.LeftPlayerPaddle.X := rfl
  have a8 : (advanceBall g).LeftPlayerPaddle.Y = g.LeftPlayerPaddle.Y := rfl
  have a9 : (advanceBall g).RightPlayerPaddle.X = g.RightPlayerPaddle.X := rfl
  have a10 : (advanceBall g).RightPlayerPaddle.Y = g.RightPlayerPaddle.Y := rfl
  have a11 : (advanceBall g).Mode = g.Mode := rfl
  have a12 : (advanceBall g).ModeTimeOut = g.ModeTimeOut := rfl
  have a13 : (advanceBall g).Height = g.Height := rfl
  have a14 : (advanceBall g).Width = g.Width := rfl
  clear hsa
  generalize advanceBall g = a at *
  unfold PaddleSizesOk minPaddleSize maxPaddleSize at p10
  unfold GameModePlaying at hm
  unfold wrap32 GameModeLeftPlayerLoosed GameModeRightPlayerLoosed at *
  have s1 : (paddleStep a).Width = width := by omega
  have s2 : (paddleStep a).Height = height := by omega
  have s3 : (paddleStep a).Ball.Width = 2 := by omega
  have s4 : (paddleStep a).Ball.Height = 1 := by omega
  have s6 : (paddleStep a).BallSpeed.Y = 1 ∨
      (paddleStep a).BallSpeed.Y = -1 := by omega
  have s7 : (paddleStep a).LeftPlayerPaddle.X = 1 := by omega
  have s8 : (paddleStep a).RightPlayerPaddle.X = width - 2 := by omega
  have s11 : 2 ≤ (paddleStep a).LeftPlayerPaddle.Y ∧
      (paddleStep a).LeftPlayerPaddle.Y ≤ height - 2 := by omega
  have s12 : 2 ≤ (paddleStep a).RightPlayerPaddle.Y ∧
      (paddleStep a).RightPlayerPaddle.Y ≤ height - 2 := by omega
  rcases p11 with ⟨c1, c2, c3, c4⟩ | ⟨c1, c1b, c2, c3, c4⟩ | ⟨c1, c1b, c2⟩
  · refine ⟨⟨s1, s2, s3, s4, ?_, s6, s7, s8, ⟨p10.1, p10.2.1⟩, ⟨p10.2.2.1, p10.2.2.2⟩, s11, s12,
      ?_, ?_⟩, ?_, ?_⟩ <;>
      (try simp only [GameModePlaying, GameModeLeftPlayerLoosed, GameModeRightPlayerLoosed]) <;>
      omega
  · refine ⟨⟨s1, s2, s3, s4, ?_, s6, s7, s8, ⟨p10.1, p10.2.1⟩, ⟨p10.2.2.1, p10.2.2.2⟩, s11, s12,
      ?_, ?_⟩, ?_, ?_⟩ <;>
      (try simp only [GameModePlaying, GameModeLeftPlayerLoosed, GameModeRightPlayerLoosed]) <;>
      omega
  · refine ⟨⟨s1, s2, s3, s4, ?_, s6, s7, s8, ⟨p10.1, p10.2.1⟩, ⟨p10.2.2.1, p10.2.2.2⟩, s11, s12,
      ?_, ?_⟩, ?_, ?_⟩ <;>
      rw [c2] <;>
      (try simp only [GameModePlaying, GameModeLeftPlayerLoosed, GameModeRightPlayerLoosed]) <;>
      omega

/-- The walls and the tick update turn the intermediate invariant into the
invariant. -/
theorem GameInv_wallStep (width height : Int) (p : GameState F)
    (hh : 10 ≤ height) (hh2 : InInt32 height) (hp : MidInv width height p) :
    GameInv width height (tickUpdate (wallStep p)) := by
  unfold InInt32 at hh2
  obtain ⟨⟨h1, h2, h3, h4, h5, h6, h7, h8, h9, h10, h11, h12, h13, h16⟩, h14, h15⟩ := hp
  obtain ⟨q1, q2, q3, q4, q5, q6, q7, q8, q9, q10, -, -, q11⟩ := wallStep_spec p
  have hLq : (wallStep p).LeftPlayerPaddle.X = p.LeftPlayerPaddle.X ∧
      (wallStep p).LeftPlayerPaddle.Y = p.LeftPlayerPaddle.Y ∧
      (wallStep p).LeftPlayerPaddle.Size = p.LeftPlayerPaddle.Size := by
    rw [q9]; exact ⟨rfl, rfl, rfl⟩
  have hRq : (wallStep p).RightPlayerPaddle.X = p.RightPlayerPaddle.X ∧
      (wallStep p).RightPlayerPaddle.Y = p.RightPlayerPaddle.Y ∧
      (wallStep p).RightPlayerPaddle.Size = p.RightPlayerPaddle.Size := by
    rw [q10]; exact ⟨rfl, rfl, rfl⟩
  clear q9 q10
  unfold wrap32 at q11
  unfold GameModePlaying GameModeLeftPlayerLoosed GameModeRightPlayerLoosed at h16
  have s1 : (wallStep p).Width = width := by omega
  have s2 : (wallStep p).Height = height := by omega
  have s3 : (wallStep p).Ball.Width = 2 := by omega
  have s4 : (wallStep p).Ball.Height = 1 := by omega
  have s5 : (wallStep p).BallSpeed.X = 1 ∨ (wallStep p).BallSpeed.X = -1 := by omega
  have s7 : (wallStep p).LeftPlayerPaddle.X = 1 := by omega
  have s8 : (wallStep p).RightPlayerPaddle.X = width - 2 := by omega
  have s9 : 4 ≤ (wallStep p).LeftPlayerPaddle.Size ∧ (wallStep p).LeftPlayerPaddle.Size ≤ 10 := by
    omega
  have s10 : 4 ≤ (wallStep p).RightPlayerPaddle.Size ∧
      (wallStep p).RightPlayerPaddle.Size ≤ 10 := by omega
  have s11 : 2 ≤ (wallStep p).LeftPlayerPaddle.Y ∧
      (wallStep p).LeftPlayerPaddle.Y ≤ height - 2 := by omega
  have s12 : 2 ≤ (wallStep p).RightPlayerPaddle.Y ∧
      (wallStep p).RightPlayerPaddle.Y ≤ height - 2 := by omega
  have s13 : 2 ≤ (wallStep p).Ball.X ∧ (wallStep p).Ball.X ≤ width - 4 := by omega
  rcases q11 with ⟨d1, d2, d3⟩ | ⟨d1, d1b, d2, d3⟩ | ⟨d1, d1b, d2⟩
  · refine ⟨⟨s1, s2, s3, s4, s5, ?_, s7, s8, s9, s10, s11, s12, s13, ?_⟩, ?_, ?_⟩ <;>
      simp only [tickUpdate, GameModePlaying, GameModeLeftPlayerLoosed,
        GameModeRightPlayerLoosed] <;> omega
  · refine ⟨⟨s1, s2, s3, s4, s5, ?_, s7, s8, s9, s10, s11, s12, s13, ?_⟩, ?_, ?_⟩ <;>
      simp only [tickUpdate, GameModePlaying, GameModeLeftPlayerLoosed,
        GameModeRightPlayerLoosed] <;> omega
  · refine ⟨⟨s1, s2, s3, s4, s5, ?_, s7, s8, s9, s10, s11, s12, s13, ?_⟩, ?_, ?_⟩ <;>
      simp only [tickUpdate, GameModePlaying, GameModeLeftPlayerLoosed,
        GameModeRightPlayerLoosed] <;> rw [d2] <;> omega

theorem GameInv_update_playing (width height : Int) (g : GameState F)
    (hw : 10 ≤ width) (hw2 : InInt32 width) (hh : 10 ≤ height) (hh2 : InInt32 height)
    (hg : GameInv width height g) (hm : g.Mode = GameModePlaying) :
    GameInv width height (Update g) := by
  rw [Update_playing g hm]
  exact GameInv_wallStep width height _ hh hh2 (MidInv_paddleStep width height g hw hw2 hh hh2 hg hm)

end GameLemmas4

end NetPongTerm

namespace NetPongTerm

section GameLemmas5

variable {F : Type} [TickModel F]

/-- A moved paddle keeps its column and size and ends between rows 2 and
`gameHeight - 2`. -/
theorem RelaviteMovePaddle_spec (p : Paddle) (relavtiveY gameHeight : Int)
    (hs : 4 ≤ p.Size ∧ p.Size ≤ 10) (hh : 10 ≤ gameHeight) (hh2 : InInt32 gameHeight) :
    (RelaviteMovePaddle p relavtiveY gameHeight).X = p.X ∧
    (RelaviteMovePaddle p relavtiveY gameHeight).Size = p.Size ∧
    2 ≤ (RelaviteMovePaddle p relavtiveY gameHeight).Y ∧
    (RelaviteMovePaddle p relavtiveY gameHeight).Y ≤ gameHeight - 2 := by
  unfold InInt32 at hh2
  have e : Int.tdiv p.Size 2 = p.Size / 2 := Int.tdiv_eq_ediv (by omega) (by omega)
  simp only [RelaviteMovePaddle, e, wrap32]
  split_ifs <;> refine ⟨rfl, rfl, ?_, ?_⟩ <;> simp only <;> omega

/-- What the `switch` of `MovePaddle` does to a state satisfying the invariant. -/
theorem movePaddleSwitch_spec (width height : Int) (g : GameState F) (m : PaddleMovement)
    (hh : 10 ≤ height) (hh2 : InInt32 height) (hg : GameInv width height g) :
    (movePaddleSwitch g m).Mode = g.Mode ∧
    (movePaddleSwitch g m).ModeTimeOut = g.ModeTimeOut ∧
    (movePaddleSwitch g m).Ball = g.Ball ∧
    (movePaddleSwitch g m).BallSpeed = g.BallSpeed ∧
    (movePaddleSwitch g m).Height = g.Height ∧
    (movePaddleSwitch g m).Width = g.Width ∧
    (movePaddleSwitch g m).LeftPlayerPaddle.X = g.LeftPlayerPaddle.X ∧
    (movePaddleSwitch g m).LeftPlayerPaddle.Size = g.LeftPlayerPaddle.Size ∧
    (movePaddleSwitch g m).RightPlayerPaddle.X = g.RightPlayerPaddle.X ∧
    (movePaddleSwitch g m).RightPlayerPaddle.Size = g.RightPlayerPaddle.Size ∧
    (2 ≤ (movePaddleSwitch g m).LeftPlayerPaddle.Y ∧
      (movePaddleSwitch g m).LeftPlayerPaddle.Y ≤ height - 2) ∧
    (2 ≤ (movePaddleSwitch g m).RightPlayerPaddle.Y ∧
      (movePaddleSwitch g m).RightPlayerPaddle.Y ≤ height - 2) := by
  obtain ⟨⟨h1, h2, -, -, -, -, -, -, h9, h10, h11, h12, -, -⟩, -, -⟩ := hg
  unfold movePaddleSwitch
  split_ifs with c1 c2
  · obtain ⟨r1, r2, r3, r4⟩ :=
      RelaviteMovePaddle_spec g.LeftPlayerPaddle m.RelativeY g.Height h9 (by rw [h2]; exact hh)
        (by rw [h2]; exact hh2)
    exact ⟨rfl, rfl, rfl, rfl, rfl, rfl, r1, r2, rfl, rfl, ⟨r3, by rw [← h2]; exact r4⟩, h12⟩
  · obtain ⟨r1, r2, r3, r4⟩ :=
      RelaviteMovePaddle_spec g.RightPlayerPaddle m.RelativeY g.Height h10 (by rw [h2]; exact hh)
        (by rw [h2]; exact hh2)
    exact ⟨rfl, rfl, rfl, rfl, rfl, rfl, rfl, rfl, r1, r2, h11, ⟨r3, by rw [← h2]; exact r4⟩⟩
  · exact ⟨rfl, rfl, rfl, rfl, rfl, rfl, rfl, rfl, rfl, rfl, h11, h12⟩

/-- With no player named, the `switch` of `MovePaddle` changes nothing. -/
theorem movePaddleSwitch_none (g : GameState F) (relativeY : Int) :
    movePaddleSwitch g { RelativeY := relativeY, Player := MoveNonePaddle } = g := by
  simp [movePaddleSwitch, MoveNonePaddle, MoveLeftPaddle, MoveRightPaddle]

/-- One `Update` during a pause whose timeout is at least 1 and at most 13:
the ball is pinned to the row of the loser, the timeout is decremented. -/
theorem Update_lost_eq (g : GameState F) (h1 : 1 ≤ g.ModeTimeOut) (h2 : g.ModeTimeOut ≤ 13) :
    (g.Mode = GameModeLeftPlayerLoosed →
      Update g = { g with Ball := { g.Ball with Y := g.LeftPlayerPaddle.Y }
                          ModeTimeOut := g.ModeTimeOut - 1 }) ∧
    (g.Mode = GameModeRightPlayerLoosed →
      Update g = { g with Ball := { g.Ball with Y := g.RightPlayerPaddle.Y }
                          ModeTimeOut := g.ModeTimeOut - 1 }) := by
  have hw : wrap16 (g.ModeTimeOut - 1) = g.ModeTimeOut - 1 := by unfold wrap16; omega
  have hn : ¬ g.ModeTimeOut - 1 < 0 := by omega
  constructor <;> intro hm <;>
    simp [Update, lostStep, hm, hw, hn, GameModePlaying, GameModeLeftPlayerLoosed,
      GameModeRightPlayerLoosed]

/-- One `Update` during a pause whose timeout is zero: the ball is pinned to
the row of the loser and play resumes. -/
theorem Update_lost_zero_eq (g : GameState F) (h0 : g.ModeTimeOut = 0) :
    (g.Mode = GameModeLeftPlayerLoosed →
      Update g = { g with Ball := { g.Ball with Y := g.LeftPlayerPaddle.Y }
                          Mode := GameModePlaying, ModeTimeOut := 0
                          Tick := TickModel.initialTick }) ∧
    (g.Mode = GameModeRightPlayerLoosed →
      Update g = { g with Ball := { g.Ball with Y := g.RightPlayerPaddle.Y }
                          Mode := GameModePlaying, ModeTimeOut := 0
                          Tick := TickModel.initialTick }) := by
  have hw : wrap16 (g.ModeTimeOut - 1) = -1 := by rw [h0]; decide
  constructor <;> intro hm <;>
    simp [Update, lostStep, hm, hw, EnterMode, GameModePlaying, GameModeLeftPlayerLoosed,
      GameModeRightPlayerLoosed]

end GameLemmas5

end NetPongTerm

namespace NetPongTerm

section GameLemmas6

variable {F : Type} [TickModel F]

/-- The method `Update` preserves the invariant. -/
theorem GameInv_update (width height : Int) (g : GameState F)
    (hw : 10 ≤ width) (hw2 : InInt32 width) (hh : 10 ≤ height) (hh2 : InInt32 height)
    (hg : GameInv width height g) : GameInv width height (Update g) := by
  have hg0 := hg
  obtain ⟨⟨h1, h2, h3, h4, h5, h6, h7, h8, h9, h10, h11, h12, h13, h16⟩, h14, h15⟩ := hg
  rcases h16 with hm | ⟨hm, hb, t1, t2⟩ | ⟨hm, hb, t1, t2⟩
  · exact GameInv_update_playing width height g hw hw2 hh hh2 hg0 hm
  · by_cases t0 : g.ModeTimeOut = 0
    · rw [(Update_lost_zero_eq g t0).1 hm]
      exact ⟨⟨h1, h2, h3, h4, h5, h6, h7, h8, h9, h10, h11, h12, h13, Or.inl rfl⟩,
        ⟨by show 0 ≤ g.LeftPlayerPaddle.Y; omega, by show g.LeftPlayerPaddle.Y ≤ height - 1; omega⟩,
        by show g.LeftPlayerPaddle.Y = height - 1 → _; omega⟩
    · rw [(Update_lost_eq g (by omega) (by omega)).1 hm]
      exact ⟨⟨h1, h2, h3, h4, h5, h6, h7, h8, h9, h10, h11, h12, h13,
          Or.inr (Or.inl ⟨hm, rfl, by show 0 ≤ g.ModeTimeOut - 1; omega,
            by show g.ModeTimeOut - 1 ≤ 12; omega⟩)⟩,
        ⟨by show 0 ≤ g.LeftPlayerPaddle.Y; omega, by show g.LeftPlayerPaddle.Y ≤ height - 1; omega⟩,
        by show g.LeftPlayerPaddle.Y = height - 1 → _; omega⟩
  · by_cases t0 : g.ModeTimeOut = 0
    · rw [(Update_lost_zero_eq g t0).2 hm]
      exact ⟨⟨h1, h2, h3, h4, h5, h6, h7, h8, h9, h10, h11, h12, h13, Or.inl rfl⟩,
        ⟨by show 0 ≤ g.RightPlayerPaddle.Y; omega,
          by show g.RightPlayerPaddle.Y ≤ height - 1; omega⟩,
        by show g.RightPlayerPaddle.Y = height - 1 → _; omega⟩
    · rw [(Update_lost_eq g (by omega) (by omega)).2 hm]
      exact ⟨⟨h1, h2, h3, h4, h5, h6, h7, h8, h9, h10, h11, h12, h13,
          Or.inr (Or.inr ⟨hm, rfl, by show 0 ≤ g.ModeTimeOut - 1; omega,
            by show g.ModeTimeOut - 1 ≤ 12; omega⟩)⟩,
        ⟨by show 0 ≤ g.RightPlayerPaddle.Y; omega,
          by show g.RightPlayerPaddle.Y ≤ height - 1; omega⟩,
        by show g.RightPlayerPaddle.Y = height - 1 → _; omega⟩

/-- The explicit result of `MovePaddle` on a state satisfying the invariant:
the paddle named by the movement is moved; during a pause the ball is pinned
again to the row of the loser and the timeout is left as it was. -/
theorem MovePaddle_eq (width height : Int) (g : GameState F) (m : PaddleMovement)
    (hg : GameInv width height g) :
    (g.Mode = GameModePlaying → MovePaddle g m = movePaddleSwitch g m) ∧
    (g.Mode = GameModeLeftPlayerLoosed →
      MovePaddle g m =
        { movePaddleSwitch g m with
          Ball := { (movePaddleSwitch g m).Ball with
                    Y := (movePaddleSwitch g m).LeftPlayerPaddle.Y } }) ∧
    (g.Mode = GameModeRightPlayerLoosed →
      MovePaddle g m =
        { movePaddleSwitch g m with
          Ball := { (movePaddleSwitch g m).Ball with
                    Y := (movePaddleSwitch g m).RightPlayerPaddle.Y } }) := by
  have e1 : (movePaddleSwitch g m).Mode = g.Mode := by
    unfold movePaddleSwitch; split_ifs <;> rfl
  have e2 : (movePaddleSwitch g m).ModeTimeOut = g.ModeTimeOut := by
    unfold movePaddleSwitch; split_ifs <;> rfl
  have ht : g.Mode ≠ GameModePlaying → 0 ≤ g.ModeTimeOut ∧ g.ModeTimeOut ≤ 12 := by
    intro hne
    rcases hg.court.mode with hm | ⟨-, -, t1, t2⟩ | ⟨-, -, t1, t2⟩
    · exact absurd hm hne
    · exact ⟨t1, t2⟩
    · exact ⟨t1, t2⟩
  have hM : MovePaddle g m =
      if (movePaddleSwitch g m).Mode = GameModeLeftPlayerLoosed ∨
          (movePaddleSwitch g m).Mode = GameModeRightPlayerLoosed then
        Update { movePaddleSwitch g m with
                 ModeTimeOut := wrap16 ((movePaddleSwitch g m).ModeTimeOut + 1) }
      else movePaddleSwitch g m := rfl
  rw [hM]
  clear hM
  generalize movePaddleSwitch g m = s at *
  refine ⟨?_, ?_, ?_⟩ <;> intro hm
  · rw [e1, hm, if_neg (by decide)]
  · obtain ⟨t1, t2⟩ := ht (by rw [hm]; decide)
    have hw : wrap16 (s.ModeTimeOut + 1) = s.ModeTimeOut + 1 := by unfold wrap16; omega
    have hu := (Update_lost_eq ({ s with ModeTimeOut := s.ModeTimeOut + 1 } : GameState F)
      (by show 1 ≤ s.ModeTimeOut + 1; omega) (by show s.ModeTimeOut + 1 ≤ 13; omega)).1
      (by show s.Mode = _; rw [e1, hm])
    rw [e1, hm, if_pos (Or.inl rfl), hw, hu]
    simp
  · obtain ⟨t1, t2⟩ := ht (by rw [hm]; decide)
    have hw : wrap16 (s.ModeTimeOut + 1) = s.ModeTimeOut + 1 := by unfold wrap16; omega
    have hu := (Update_lost_eq ({ s with ModeTimeOut := s.ModeTimeOut + 1 } : GameState F)
      (by show 1 ≤ s.ModeTimeOut + 1; omega) (by show s.ModeTimeOut + 1 ≤ 13; omega)).2
      (by show s.Mode = _; rw [e1, hm])
    rw [e1, hm, if_pos (Or.inr rfl), hw, hu]
    simp

/-- The method `MovePaddle` preserves the invariant. -/
theorem GameInv_move (width height : Int) (g : GameState F) (m : PaddleMovement)
    (hh : 10 ≤ height) (hh2 : InInt32 height)
    (hg : GameInv width height g) : GameInv width height (MovePaddle g m) := by
  obtain ⟨me0, me1, me2⟩ := MovePaddle_eq width height g m hg
  obtain ⟨s1, s2, s3, s4, s5, s6, s7, s8, s9, s10, s11, s12⟩ :=
    movePaddleSwitch_spec width height g m hh hh2 hg
  obtain ⟨⟨h1, h2, h3, h4, h5, h6, h7, h8, h9, h10, h11, h12, h13, h16⟩, h14, h15⟩ := hg
  generalize movePaddleSwitch g m = s at *
  have c1 : s.Width = width := by omega
  have c2 : s.Height = height := by omega
  have c3 : s.Ball.Width = 2 := by rw [s3]; exact h3
  have c4 : s.Ball.Height = 1 := by rw [s3]; exact h4
  have c5 : s.BallSpeed.X = 1 ∨ s.BallSpeed.X = -1 := by rw [s4]; exact h5
  have c6 : s.BallSpeed.Y = 1 ∨ s.BallSpeed.Y = -1 := by rw [s4]; exact h6
  have c7 : s.LeftPlayerPaddle.X = 1 := by omega
  have c8 : s.RightPlayerPaddle.X = width - 2 := by omega
  have c9 : 4 ≤ s.LeftPlayerPaddle.Size ∧ s.LeftPlayerPaddle.Size ≤ 10 := by omega
  have c10 : 4 ≤ s.RightPlayerPaddle.Size ∧ s.RightPlayerPaddle.Size ≤ 10 := by omega
  have c13 : 2 ≤ s.Ball.X ∧ s.Ball.X ≤ width - 4 := by rw [s3]; exact h13
  rcases h16 with hm | ⟨hm, hb, t1, t2⟩ | ⟨hm, hb, t1, t2⟩
  · rw [me0 hm]
    exact ⟨⟨c1, c2, c3, c4, c5, c6, c7, c8, c9, c10, s11, s12, c13, Or.inl (by rw [s1]; exact hm)⟩,
      by rw [s3]; exact h14, by rw [s3, s4]; exact h15⟩
  · rw [me1 hm]
    exact ⟨⟨c1, c2, c3, c4, c5, c6, c7, c8, c9, c10, s11, s12, c13,
        Or.inr (Or.inl ⟨by rw [← hm]; exact s1, rfl, by rw [← s2] at t1; exact t1,
          by rw [← s2] at t2; exact t2⟩)⟩,
      ⟨by show 0 ≤ s.LeftPlayerPaddle.Y; omega, by show s.LeftPlayerPaddle.Y ≤ height - 1; omega⟩,
      by show s.LeftPlayerPaddle.Y = height - 1 → _; omega⟩
  · rw [me2 hm]
    exact ⟨⟨c1, c2, c3, c4, c5, c6, c7, c8, c9, c10, s11, s12, c13,
        Or.inr (Or.inr ⟨by rw [← hm]; exact s1, rfl, by rw [← s2] at t1; exact t1,
          by rw [← s2] at t2; exact t2⟩)⟩,
      ⟨by show 0 ≤ s.RightPlayerPaddle.Y; omega,
        by show s.RightPlayerPaddle.Y ≤ height - 1; omega⟩,
      by show s.RightPlayerPaddle.Y = height - 1 → _; omega⟩

/-- Every state reachable by `Update` and `MovePaddle` satisfies the invariant. -/
theorem GameInv_of_reachable (width height : Int) (g : GameState F)
    (hw : 10 ≤ width) (hw2 : InInt32 width) (hh : 10 ≤ height) (hh2 : InInt32 height)
    (hr : Reachable width height g) : GameInv width height g := by
  induction hr with
  | init debugFlag => exact GameInv_init debugFlag width height hw hw2 hh hh2
  | update _ ih => exact GameInv_update width height _ hw hw2 hh hh2 ih
  | move m _ ih => exact GameInv_move width height _ m hh hh2 ih

end GameLemmas6

end NetPongTerm

namespace NetPongTerm

section GameTheorems

variable {F : Type} [TickModel F]

theorem RelaviteMovePaddle_size (p : Paddle) (relavtiveY gameHeight : Int) :
    (RelaviteMovePaddle p relavtiveY gameHeight).Size = p.Size := by
  simp only [RelaviteMovePaddle]
  split_ifs <;> rfl

theorem PaddleSizesOk_update (g : GameState F) (h : PaddleSizesOk g) :
    PaddleSizesOk (Update g) := by
  unfold Update
  split_ifs with c1 c2 c3
  · have hp := (paddleStep_spec (advanceBall g) h).2.2.2.2.2.2.2.2.2.1
    obtain ⟨-, -, -, -, -, -, -, -, q9, q10, -⟩ := wallStep_spec (paddleStep (advanceBall g))
    unfold PaddleSizesOk at hp ⊢
    simp only [tickUpdate]
    rw [q9, q10]
    exact hp
  · simp only [lostStep]
    split_ifs
    · exact EnterMode_sizes _ _ h
    · exact h
  · simp only [lostStep]
    split_ifs
    · exact EnterMode_sizes _ _ h
    · exact h
  · exact h

theorem PaddleSizesOk_move (g : GameState F) (m : PaddleMovement) (h : PaddleSizesOk g) :
    PaddleSizesOk (MovePaddle g m) := by
  have hs : PaddleSizesOk (movePaddleSwitch g m) := by
    unfold movePaddleSwitch
    split_ifs
    · unfold PaddleSizesOk
      simp only [RelaviteMovePaddle_size]
      exact h
    · unfold PaddleSizesOk
      simp only [RelaviteMovePaddle_size]
      exact h
    · exact h
  simp only [MovePaddle]
  split_ifs
  · exact PaddleSizesOk_update _ hs
  · exact hs

/-- Claim C5: Paddle-size invariant.  In every state reachable from
`NewGameState` by any sequence of `Update`, `MovePaddle` and `EnterMode` calls,
both paddle sizes lie in `[minPaddleSize, maxPaddleSize] = [4, 10]`; and each
of the three operations preserves that predicate. -/
theorem paddle_size_invariant :
    (∀ (width height : Int) (g : GameState F),
      ReachableWithEnterMode width height g →
        4 ≤ g.LeftPlayerPaddle.Size ∧ g.LeftPlayerPaddle.Size ≤ 10 ∧
        4 ≤ g.RightPlayerPaddle.Size ∧ g.RightPlayerPaddle.Size ≤ 10) ∧
    (∀ g : GameState F, PaddleSizesOk g → PaddleSizesOk (Update g)) ∧
    (∀ (g : GameState F) (m : PaddleMovement), PaddleSizesOk g → PaddleSizesOk (MovePaddle g m)) ∧
    (∀ (g : GameState F) (mode : Int), PaddleSizesOk g → PaddleSizesOk (EnterMode g mode)) := by
  refine ⟨?_, PaddleSizesOk_update, PaddleSizesOk_move, EnterMode_sizes⟩
  intro width height g hr
  have key : PaddleSizesOk g := by
    induction hr with
    | init debugFlag =>
      simp [PaddleSizesOk, NewGameState, minPaddleSize, maxPaddleSize, initialPaddleSize]
    | update _ ih => exact PaddleSizesOk_update _ ih
    | move m _ ih => exact PaddleSizesOk_move _ m ih
    | enter mode _ ih => exact EnterMode_sizes _ mode ih
  exact key

/-- Claim C6: Ball containment.  For a field of `width ≥ 10` by `height ≥ 10`
(both `int32`) and every state reachable from `NewGameState(width, height)` by
`Update` and `MovePaddle`, after one more `Update` the ball rectangle lies
inside the field, and during a pause the ball is on the row of the loser. -/
theorem ball_containment (width height : Int)
    (hw : 10 ≤ width) (hw2 : InInt32 width) (hh : 10 ≤ height) (hh2 : InInt32 height)
    (g : GameState F) (hr : Reachable width height g) :
    (0 ≤ (Update g).Ball.X ∧ (Update g).Ball.X + (Update g).Ball.Width ≤ (Update g).Width ∧
      0 ≤ (Update g).Ball.Y ∧ (Update g).Ball.Y + (Update g).Ball.Height ≤ (Update g).Height) ∧
    ((Update g).Mode = GameModeLeftPlayerLoosed →
      (Update g).Ball.Y = (Update g).LeftPlayerPaddle.Y) ∧
    ((Update g).Mode = GameModeRightPlayerLoosed →
      (Update g).Ball.Y = (Update g).RightPlayerPaddle.Y) := by
  have hg := GameInv_update width height g hw hw2 hh hh2
    (GameInv_of_reachable width height g hw hw2 hh hh2 hr)
  obtain ⟨⟨h1, h2, h3, h4, -, -, -, -, -, -, -, -, h13, h16⟩, h14, -⟩ := hg
  unfold GameModePlaying GameModeLeftPlayerLoosed GameModeRightPlayerLoosed at *
  refine ⟨⟨?_, ?_, ?_, ?_⟩, ?_, ?_⟩ <;> omega

/-- With no player named, `MovePaddle` returns a state satisfying the
invariant as it is (the timeout included). -/
theorem MovePaddle_none_eq (width height : Int) (g : GameState F)
    (hg : GameInv width height g) (relativeY : Int) :
    MovePaddle g { RelativeY := relativeY, Player := MoveNonePaddle } = g := by
  obtain ⟨me0, me1, me2⟩ :=
    MovePaddle_eq width height g { RelativeY := relativeY, Player := MoveNonePaddle } hg
  rw [movePaddleSwitch_none] at me0 me1 me2
  rcases hg.court.mode with hm | ⟨hm, hb, -, -⟩ | ⟨hm, hb, -, -⟩
  · exact me0 hm
  · rw [me1 hm, ← hb]
  · rw [me2 hm, ← hb]

/-- Claim C9: No-op movement.  For a field of `width ≥ 10` by `height ≥ 10` and
every state reachable from `NewGameState(width, height)` by `Update` and
`MovePaddle`, `MovePaddle` with `Player = MoveNonePaddle` (0) and any
`RelativeY` leaves every field other than `ModeTimeOut` unchanged, and in mode
`GameModePlaying` it leaves the whole state unchanged. -/
theorem noop_movement (width height : Int)
    (hw : 10 ≤ width) (hw2 : InInt32 width) (hh : 10 ≤ height) (hh2 : InInt32 height)
    (g : GameState F) (hr : Reachable width height g) (relativeY : Int) :
    { MovePaddle g { RelativeY := relativeY, Player := 0 } with
        ModeTimeOut := g.ModeTimeOut } = g ∧
    (g.Mode = GameModePlaying →
      MovePaddle g { RelativeY := relativeY, Player := 0 } = g) := by
  have e := MovePaddle_none_eq width height g
    (GameInv_of_reachable width height g hw hw2 hh hh2 hr) relativeY
  unfold MoveNonePaddle at e
  rw [e]
  exact ⟨rfl, fun _ => rfl⟩

/-- The method `EnterMode` keeps the sum of the paddle sizes at most 14. -/
theorem EnterMode_sum (g : GameState F) (mode : Int) (h : PaddleSizesOk g)
    (hs : PaddleSumOk g) : PaddleSumOk (EnterMode g mode) := by
  unfold PaddleSumOk at *
  unfold PaddleSizesOk minPaddleSize maxPaddleSize at h
  by_cases h1 : mode = GameModeLeftPlayerLoosed
  · subst h1
    obtain ⟨e1, e2⟩ := EnterMode_left_sizes g
    rw [e1, e2]
    unfold wrap32
    split_ifs <;> omega
  · by_cases h2 : mode = GameModeRightPlayerLoosed
    · subst h2
      obtain ⟨e1, e2⟩ := EnterMode_right_sizes g
      rw [e1, e2]
      unfold wrap32
      split_ifs <;> omega
    · obtain ⟨e1, e2⟩ := EnterMode_other_sizes g mode h1 h2
      rw [e1, e2]
      exact hs

theorem leftPaddleBranch_sum (g : GameState F) (h : PaddleSizesOk g) (hs : PaddleSumOk g) :
    PaddleSumOk (leftPaddleBranch g) := by
  by_cases ht : paddleTest g.Ball g.LeftPlayerPaddle
  · have e : leftPaddleBranch g =
        { g with Ball := { g.Ball with X := wrap32 (g.LeftPlayerPaddle.X + 1) }
                 BallSpeed := { g.BallSpeed with X := wrap32 (g.BallSpeed.X * -1) } } := by
      simp only [leftPaddleBranch, if_pos ht]
    rw [e]
    exact hs
  · have e : leftPaddleBranch g =
        (let e1 := EnterMode
            ({ g with RightPlayerScore := wrap32 (g.RightPlayerScore + 1)
                      Ball := { g.Ball with Y := g.LeftPlayerPaddle.Y } } : GameState F)
            GameModeLeftPlayerLoosed
         { e1 with Ball := { e1.Ball with X := wrap32 (e1.LeftPlayerPaddle.X + 1) }
                   BallSpeed := { e1.BallSpeed with X := wrap32 (e1.BallSpeed.X * -1) } }) := by
      simp only [leftPaddleBranch, if_neg ht]
    rw [e]
    exact EnterMode_sum
      ({ g with RightPlayerScore := wrap32 (g.RightPlayerScore + 1)
                Ball := { g.Ball with Y := g.LeftPlayerPaddle.Y } } : GameState F)
      GameModeLeftPlayerLoosed h hs

theorem rightPaddleBranch_sum (g : GameState F) (h : PaddleSizesOk g) (hs : PaddleSumOk g) :
    PaddleSumOk (rightPaddleBranch g) := by
  by_cases ht : paddleTest g.Ball g.RightPlayerPaddle
  · have e : rightPaddleBranch g =
        { g with Ball := { g.Ball with X := wrap32 (g.RightPlayerPaddle.X - g.Ball.Width) }
                 BallSpeed := { g.BallSpeed with X := wrap32 (g.BallSpeed.X * -1) } } := by
      simp only [rightPaddleBranch, if_pos ht]
    rw [e]
    exact hs
  · have e : rightPaddleBranch g =
        (let e1 := EnterMode
            ({ g with LeftPlayerScore := wrap32 (g.LeftPlayerScore + 1)
                      Ball := { g.Ball with Y := g.RightPlayerPaddle.Y } } : GameState F)
            GameModeRightPlayerLoosed
         { e1 with Ball := { e1.Ball with X := wrap32 (e1.RightPlayerPaddle.X - e1.Ball.Width) }
                   BallSpeed := { e1.BallSpeed with X := wrap32 (e1.BallSpeed.X * -1) } }) := by
      simp only [rightPaddleBranch, if_neg ht]
    rw [e]
    exact EnterMode_sum
      ({ g with LeftPlayerScore := wrap32 (g.LeftPlayerScore + 1)
                Ball := { g.Ball with Y := g.RightPlayerPaddle.Y } } : GameState F)
      GameModeRightPlayerLoosed h hs

theorem PaddleSumOk_update (g : GameState F) (h : PaddleSizesOk g) (hs : PaddleSumOk g) :
    PaddleSumOk (Update g) := by
  unfold Update
  split_ifs with c1 c2 c3
  · have hp : PaddleSumOk (paddleStep (advanceBall g)) := by
      unfold paddleStep
      split_ifs
      · exact leftPaddleBranch_sum (advanceBall g) h hs
      · exact rightPaddleBranch_sum (advanceBall g) h hs
      · exact hs
    obtain ⟨-, -, -, -, -, -, -, -, q9, q10, -⟩ := wallStep_spec (paddleStep (advanceBall g))
    unfold PaddleSumOk at hp ⊢
    simp only [tickUpdate]
    rw [q9, q10]
    exact hp
  · simp only [lostStep]
    split_ifs
    · exact EnterMode_sum _ _ h hs
    · exact hs
  · simp only [lostStep]
    split_ifs
    · exact EnterMode_sum _ _ h hs
    · exact hs
  · exact hs

theorem PaddleSumOk_move (g : GameState F) (m : PaddleMovement) (h : PaddleSizesOk g)
    (hs : PaddleSumOk g) : PaddleSumOk (MovePaddle g m) := by
  have h1 : PaddleSizesOk (movePaddleSwitch g m) ∧ PaddleSumOk (movePaddleSwitch g m) := by
    unfold movePaddleSwitch
    split_ifs
    · unfold PaddleSizesOk PaddleSumOk
      simp only [RelaviteMovePaddle_size]
      exact ⟨h, hs⟩
    · unfold PaddleSizesOk PaddleSumOk
      simp only [RelaviteMovePaddle_size]
      exact ⟨h, hs⟩
    · exact ⟨h, hs⟩
  simp only [MovePaddle]
  split_ifs
  · exact PaddleSumOk_update _ h1.1 h1.2
  · exact h1.2

/-- Every state reachable by `Update`, `MovePaddle` and `EnterMode` has both
paddle sizes in `[4, 10]` and their sum at most 14; so a paddle of size 10
faces a paddle of size 4. -/
theorem sizes_of_reachable (width height : Int) (g : GameState F)
    (hr : ReachableWithEnterMode width height g) : PaddleSizesOk g ∧ PaddleSumOk g := by
  induction hr with
  | init debugFlag =>
    constructor
    · simp [PaddleSizesOk, NewGameState, minPaddleSize, maxPaddleSize, initialPaddleSize]
    · simp [PaddleSumOk, NewGameState, initialPaddleSize]
  | update _ ih => exact ⟨PaddleSizesOk_update _ ih.1, PaddleSumOk_update _ ih.1 ih.2⟩
  | move m _ ih => exact ⟨PaddleSizesOk_move _ m ih.1, PaddleSumOk_move _ m ih.1 ih.2⟩
  | enter mode _ ih => exact ⟨EnterMode_sizes _ mode ih.1, EnterMode_sum _ mode ih.1 ih.2⟩

/-- Claim C10: handicap rebalancing.  In every game state the program can be
in (reachable from `NewGameState` by `Update`, `MovePaddle` and `EnterMode`
calls), both paddle sizes lie in `[4, 10]`, `EnterMode(GameModeLeftPlayerLoosed)`
sets the left size to `min (old left + 1) 10` and the right size to
`max (old right - 1) 4`, and `EnterMode(GameModeRightPlayerLoosed)` sets the
right size to `min (old right + 1) 10` and the left size to
`max (old left - 1) 4`. -/
theorem handicap_rebalancing (width height : Int) (g : GameState F)
    (hr : ReachableWithEnterMode width height g) :
    (4 ≤ g.LeftPlayerPaddle.Size ∧ g.LeftPlayerPaddle.Size ≤ 10 ∧
      4 ≤ g.RightPlayerPaddle.Size ∧ g.RightPlayerPaddle.Size ≤ 10) ∧
    (EnterMode g GameModeLeftPlayerLoosed).LeftPlayerPaddle.Size =
      min (g.LeftPlayerPaddle.Size + 1) 10 ∧
    (EnterMode g GameModeLeftPlayerLoosed).RightPlayerPaddle.Size =
      max (g.RightPlayerPaddle.Size - 1) 4 ∧
    (EnterMode g GameModeRightPlayerLoosed).RightPlayerPaddle.Size =
      min (g.RightPlayerPaddle.Size + 1) 10 ∧
    (EnterMode g GameModeRightPlayerLoosed).LeftPlayerPaddle.Size =
      max (g.LeftPlayerPaddle.Size - 1) 4 := by
  obtain ⟨hz, hs⟩ := sizes_of_reachable width height g hr
  obtain ⟨l1, l2⟩ := EnterMode_left_sizes g
  obtain ⟨r1, r2⟩ := EnterMode_right_sizes g
  unfold PaddleSizesOk minPaddleSize maxPaddleSize at hz
  unfold PaddleSumOk at hs
  rw [l1, l2, r1, r2]
  unfold wrap32
  refine ⟨hz, ?_, ?_, ?_, ?_⟩ <;> split_ifs <;> omega

end GameTheorems

end NetPongTerm

namespace NetPongTerm

section LeftColumn

variable {F : Type} [TickModel F]

/-- The rule `Update` applies at the left paddle column: when the advanced
ball is at or left of the column, the right player scores and the mode becomes
`GameModeLeftPlayerLoosed` exactly when the test of lines 163-164 fails;
otherwise score and mode are unchanged. -/
theorem Update_left_column (g : GameState F) (hm : g.Mode = GameModePlaying)
    (hx : (advanceBall g).Ball.X ≤ g.LeftPlayerPaddle.X) :
    (paddleTest (advanceBall g).Ball g.LeftPlayerPaddle →
      (Update g).RightPlayerScore = g.RightPlayerScore ∧ (Update g).Mode = g.Mode) ∧
    (¬ paddleTest (advanceBall g).Ball g.LeftPlayerPaddle →
      (Update g).RightPlayerScore = wrap32 (g.RightPlayerScore + 1) ∧
      (Update g).Mode = GameModeLeftPlayerLoosed) := by
  obtain ⟨q1, -, -, -, -, -, -, -, -, -, -, q12, -⟩ := wallStep_spec (paddleStep (advanceBall g))
  have hp : paddleStep (advanceBall g) = leftPaddleBranch (advanceBall g) := by
    have hx1 : (advanceBall g).Ball.X ≤ (advanceBall g).LeftPlayerPaddle.X := hx
    unfold paddleStep
    rw [if_pos hx1]
  rw [Update_playing g hm]
  simp only [tickUpdate]
  rw [q1, q12, hp]
  constructor
  · intro ht
    have ht1 : paddleTest (advanceBall g).Ball (advanceBall g).LeftPlayerPaddle := ht
    simp only [leftPaddleBranch, if_pos ht1]
    exact ⟨rfl, rfl⟩
  · intro ht
    have ht1 : ¬ paddleTest (advanceBall g).Ball (advanceBall g).LeftPlayerPaddle := ht
    simp only [leftPaddleBranch, if_neg ht1]
    obtain ⟨-, -, -, -, -, -, -, -, -, f10, -⟩ := EnterMode_fields
      ({ advanceBall g with
          RightPlayerScore := wrap32 ((advanceBall g).RightPlayerScore + 1)
          Ball := { (advanceBall g).Ball with Y := (advanceBall g).LeftPlayerPaddle.Y } } :
        GameState F)
      GameModeLeftPlayerLoosed
    obtain ⟨m1, -⟩ := EnterMode_lost_mode
      ({ advanceBall g with
          RightPlayerScore := wrap32 ((advanceBall g).RightPlayerScore + 1)
          Ball := { (advanceBall g).Ball with Y := (advanceBall g).LeftPlayerPaddle.Y } } :
        GameState F)
      GameModeLeftPlayerLoosed (Or.inl rfl)
    exact ⟨f10, m1⟩

end LeftColumn

/-- Claim C2: Collision rule on the left paddle: the code at the top row of the
paddle.  In `exampleGame` the mode is `GameModePlaying`, the ball is at `(2, 8)`
(width 2, height 1) moving by `(-1, -1)` and the left paddle is at `x = 1`,
`y = 10`, `size = 6`, so that its span is `[7, 13)`.  The next `Update`
advances the ball to `(1, 7)`, at the paddle column, where its row span
`[7, 8)` meets the paddle span in row 7; nevertheless the right player scores
and the mode becomes `GameModeLeftPlayerLoosed`.  With the ball arriving in row
10 the code bounces, and in row 20 of a higher field it scores, as the claim
says. -/
theorem left_paddle_top_row_scores :
    exampleGame.Mode = GameModePlaying ∧
    exampleGame.Ball = { X := 2, Y := 8, Width := 2, Height := 1 } ∧
    exampleGame.BallSpeed = { X := -1, Y := -1 } ∧
    exampleGame.LeftPlayerPaddle = { X := 1, Y := 10, Size := 6 } ∧
    exampleGame.RightPlayerScore = 0 ∧
    (advanceBall exampleGame).Ball = { X := 1, Y := 7, Width := 2, Height := 1 } ∧
    ((10 : Int) - 6 / 2 ≤ 7 ∧ (7 : Int) < 7 + 1 ∧ (7 : Int) < 10 + 6 / 2) ∧
    (Update exampleGame).RightPlayerScore = 1 ∧
    (Update exampleGame).Mode = GameModeLeftPlayerLoosed ∧
    (Update
      ({ Mode := 0, ModeTimeOut := 0, Ball := { X := 2, Y := 11, Width := 2, Height := 1 },
         BallSpeed := { X := -1, Y := -1 },
         LeftPlayerPaddle := { X := 1, Y := 10, Size := 6 },
         RightPlayerPaddle := { X := 38, Y := 15, Size := 6 },
         Tick := 4634626229029306368, Height := 30, Width := 40, LeftPlayerScore := 0, RightPlayerScore := 0,
         Debug := 0 } : GameState Float64)).RightPlayerScore = 0 ∧
    (Update
      ({ Mode := 0, ModeTimeOut := 0, Ball := { X := 2, Y := 11, Width := 2, Height := 1 },
         BallSpeed := { X := -1, Y := -1 },
         LeftPlayerPaddle := { X := 1, Y := 10, Size := 6 },
         RightPlayerPaddle := { X := 38, Y := 15, Size := 6 },
         Tick := 4634626229029306368, Height := 30, Width := 40, LeftPlayerScore := 0, RightPlayerScore := 0,
         Debug := 0 } : GameState Float64)).Mode = GameModePlaying ∧
    (Update
      ({ Mode := 0, ModeTimeOut := 0, Ball := { X := 2, Y := 21, Width := 2, Height := 1 },
         BallSpeed := { X := -1, Y := -1 },
         LeftPlayerPaddle := { X := 1, Y := 10, Size := 6 },
         RightPlayerPaddle := { X := 38, Y := 15, Size := 6 },
         Tick := 4634626229029306368, Height := 30, Width := 40, LeftPlayerScore := 0, RightPlayerScore := 0,
         Debug := 0 } : GameState Float64)).RightPlayerScore = 1 ∧
    (Update
      ({ Mode := 0, ModeTimeOut := 0, Ball := { X := 2, Y := 21, Width := 2, Height := 1 },
         BallSpeed := { X := -1, Y := -1 },
         LeftPlayerPaddle := { X := 1, Y := 10, Size := 6 },
         RightPlayerPaddle := { X := 38, Y := 15, Size := 6 },
         Tick := 4634626229029306368, Height := 30, Width := 40, LeftPlayerScore := 0, RightPlayerScore := 0,
         Debug := 0 } : GameState Float64)).Mode = GameModeLeftPlayerLoosed := by
  decide

end NetPongTerm

namespace NetPongTerm

/-- The example game is reachable by `Update` and `MovePaddle`. -/
theorem exampleGame_reachable : Reachable 20 20 exampleGame := by
  have hn : ∀ (n : Nat) (s : GameState Float64), Reachable 20 20 s → Reachable 20 20 (UpdateN n s) := by
    intro n
    induction n with
    | zero => intro s hs; exact hs
    | succ n ih => intro s hs; exact ih _ (Reachable.update hs)
  exact hn 25 _ (Reachable.move _ (Reachable.init false))

/-- Claim C5, witness: a state reached through `MovePaddle`, `Update` and
`EnterMode`. -/
theorem paddle_size_invariant_witness :
    ReachableWithEnterMode 20 20
        (EnterMode (Update (MovePaddle (NewGameState false 20 20 : GameState Float64)
          { RelativeY := 6, Player := MoveRightPaddle })) GameModeLeftPlayerLoosed) ∧
      4 ≤ (EnterMode (Update (MovePaddle (NewGameState false 20 20 : GameState Float64)
          { RelativeY := 6, Player := MoveRightPaddle }))
          GameModeLeftPlayerLoosed).LeftPlayerPaddle.Size ∧
      (EnterMode (Update (MovePaddle (NewGameState false 20 20 : GameState Float64)
          { RelativeY := 6, Player := MoveRightPaddle }))
          GameModeLeftPlayerLoosed).LeftPlayerPaddle.Size ≤ 10 ∧
      4 ≤ (EnterMode (Update (MovePaddle (NewGameState false 20 20 : GameState Float64)
          { RelativeY := 6, Player := MoveRightPaddle }))
          GameModeLeftPlayerLoosed).RightPlayerPaddle.Size ∧
      (EnterMode (Update (MovePaddle (NewGameState false 20 20 : GameState Float64)
          { RelativeY := 6, Player := MoveRightPaddle }))
          GameModeLeftPlayerLoosed).RightPlayerPaddle.Size ≤ 10 :=
  have hr : ReachableWithEnterMode 20 20
      (EnterMode (Update (MovePaddle (NewGameState false 20 20 : GameState Float64)
        { RelativeY := 6, Player := MoveRightPaddle })) GameModeLeftPlayerLoosed) :=
    ReachableWithEnterMode.enter _ (ReachableWithEnterMode.update
      (ReachableWithEnterMode.move _ (ReachableWithEnterMode.init false)))
  ⟨hr, (@paddle_size_invariant Float64 _).1 20 20 _ hr⟩

/-- Claim C6, witness: the tick of the example game at which the ball reaches
the left paddle column. -/
theorem ball_containment_witness :
    (10 : Int) ≤ 20 ∧ InInt32 20 ∧ Reachable 20 20 exampleGame ∧
    (0 ≤ (Update exampleGame).Ball.X ∧
      (Update exampleGame).Ball.X + (Update exampleGame).Ball.Width ≤
        (Update exampleGame).Width ∧
      0 ≤ (Update exampleGame).Ball.Y ∧
      (Update exampleGame).Ball.Y + (Update exampleGame).Ball.Height ≤
        (Update exampleGame).Height) ∧
    ((Update exampleGame).Mode = GameModeLeftPlayerLoosed →
      (Update exampleGame).Ball.Y = (Update exampleGame).LeftPlayerPaddle.Y) ∧
    ((Update exampleGame).Mode = GameModeRightPlayerLoosed →
      (Update exampleGame).Ball.Y = (Update exampleGame).RightPlayerPaddle.Y) :=
  ⟨by decide, by decide, exampleGame_reachable,
    ball_containment 20 20 (by decide) (by decide) (by decide) (by decide) exampleGame
      exampleGame_reachable⟩

/-- Claim C8, witness: the pause entered from the initial state of a field of
20 by 20. -/
theorem point_pause_length_witness :
    (12 : Nat) ≤ 12 ∧
    (UpdateN 12 (EnterMode (NewGameState false 20 20 : GameState Float64)
      GameModeLeftPlayerLoosed)).Mode = GameModeLeftPlayerLoosed ∧
    (UpdateN 13 (EnterMode (NewGameState false 20 20 : GameState Float64)
      GameModeLeftPlayerLoosed)).Mode = GameModePlaying ∧
    (UpdateN 12 (EnterMode (NewGameState false 20 20 : GameState Float64)
      GameModeRightPlayerLoosed)).Mode = GameModeRightPlayerLoosed ∧
    (UpdateN 13 (EnterMode (NewGameState false 20 20 : GameState Float64)
      GameModeRightPlayerLoosed)).Mode = GameModePlaying :=
  ⟨le_refl 12, (point_pause_length _).1 12 (le_refl 12), (point_pause_length _).2.1,
    (point_pause_length _).2.2.1 12 (le_refl 12), (point_pause_length _).2.2.2⟩

/-- Claim C9, witness: the pause that follows the example game, in mode
`GameModeLeftPlayerLoosed`, with `RelativeY = 5`. -/
theorem noop_movement_witness :
    (10 : Int) ≤ 20 ∧ InInt32 20 ∧ Reachable 20 20 (Update exampleGame) ∧
    (Update exampleGame).Mode = GameModeLeftPlayerLoosed ∧
    { MovePaddle (Update exampleGame) { RelativeY := 5, Player := 0 } with
        ModeTimeOut := (Update exampleGame).ModeTimeOut } = Update exampleGame ∧
    ((Update exampleGame).Mode = GameModePlaying →
      MovePaddle (Update exampleGame) { RelativeY := 5, Player := 0 } = Update exampleGame) :=
  ⟨by decide, by decide, Reachable.update exampleGame_reachable, by decide,
    noop_movement 20 20 (by decide) (by decide) (by decide) (by decide) (Update exampleGame)
      (Reachable.update exampleGame_reachable) 5⟩

/-- Claim C10, witness: the state after four lost points of the left player,
with the left paddle at size 10 and the right paddle at size 4. -/
theorem handicap_rebalancing_witness :
    ReachableWithEnterMode 20 20
      (EnterMode (EnterMode (EnterMode (EnterMode
        (NewGameState false 20 20 : GameState Float64) GameModeLeftPlayerLoosed)
        GameModeLeftPlayerLoosed) GameModeLeftPlayerLoosed) GameModeLeftPlayerLoosed) ∧
    (EnterMode (EnterMode (EnterMode (EnterMode
        (NewGameState false 20 20 : GameState Float64) GameModeLeftPlayerLoosed)
        GameModeLeftPlayerLoosed) GameModeLeftPlayerLoosed)
        GameModeLeftPlayerLoosed).LeftPlayerPaddle.Size = 10 ∧
    (EnterMode (EnterMode (EnterMode (EnterMode
        (NewGameState false 20 20 : GameState Float64) GameModeLeftPlayerLoosed)
        GameModeLeftPlayerLoosed) GameModeLeftPlayerLoosed)
        GameModeLeftPlayerLoosed).RightPlayerPaddle.Size = 4 ∧
    (EnterMode (EnterMode (EnterMode (EnterMode (EnterMode
        (NewGameState false 20 20 : GameState Float64) GameModeLeftPlayerLoosed)
        GameModeLeftPlayerLoosed) GameModeLeftPlayerLoosed) GameModeLeftPlayerLoosed)
        GameModeLeftPlayerLoosed).RightPlayerPaddle.Size =
      max ((EnterMode (EnterMode (EnterMode (EnterMode
        (NewGameState false 20 20 : GameState Float64) GameModeLeftPlayerLoosed)
        GameModeLeftPlayerLoosed) GameModeLeftPlayerLoosed)
        GameModeLeftPlayerLoosed).RightPlayerPaddle.Size - 1) 4 :=
  have hr : ReachableWithEnterMode 20 20
      (EnterMode (EnterMode (EnterMode (EnterMode
        (NewGameState false 20 20 : GameState Float64) GameModeLeftPlayerLoosed)
        GameModeLeftPlayerLoosed) GameModeLeftPlayerLoosed) GameModeLeftPlayerLoosed) :=
    ReachableWithEnterMode.enter _ (ReachableWithEnterMode.enter _
      (ReachableWithEnterMode.enter _ (ReachableWithEnterMode.enter _
        (ReachableWithEnterMode.init false))))
  ⟨hr, by decide, by decide, (handicap_rebalancing 20 20 _ hr).2.2.1⟩

end NetPongTerm

namespace NetPongTerm

/-! ## Lemmas: the viewport layout -/

theorem wrap32_of_InInt32 (x : Int) (h : InInt32 x) : wrap32 x = x := by
  unfold InInt32 at h
  unfold wrap32
  omega

theorem InInt32_wrap32 (x : Int) : InInt32 (wrap32 x) := by
  unfold InInt32 wrap32
  omega

theorem wrap32_wrap32_add (a b : Int) : wrap32 (wrap32 a + b) = wrap32 (a + b) := by
  unfold wrap32
  omega

/-- The window widths of the clients. -/
theorem offsetLoop_length (x h : Int) (cs : List ClientConn) :
    (offsetLoop x h cs).1.length = cs.length := by
  induction cs generalizing x h with
  | nil => rfl
  | cons c cs ih => simp [offsetLoop, ih]

theorem offsetLoop_getElem (x h : Int) (cs : List ClientConn) (i : Nat) (hx : InInt32 x) :
    (offsetLoop x h cs).1[i]? =
      (cs[i]?).map (fun c =>
        { c with ViewSettings :=
            { c.ViewSettings with
              XOffset := wrap32 (x + ((cs.take i).map (fun d => d.WindowSettings.Width)).sum) } }) := by
  induction cs generalizing x h i with
  | nil => simp [offsetLoop]
  | cons c cs ih =>
    cases i with
    | zero => simp [offsetLoop, wrap32_of_InInt32 x hx]
    | succ i =>
      simp only [offsetLoop, List.getElem?_cons_succ, List.take_succ_cons, List.map_cons,
        List.sum_cons]
      rw [ih _ _ i (InInt32_wrap32 _), wrap32_wrap32_add, add_assoc]

theorem offsetLoop_xOffset (x h : Int) (cs : List ClientConn) (hx : InInt32 x) :
    (offsetLoop x h cs).2.1 = wrap32 (x + (cs.map (fun d => d.WindowSettings.Width)).sum) := by
  induction cs generalizing x h with
  | nil => simp [offsetLoop, wrap32_of_InInt32 x hx]
  | cons c cs ih =>
    simp only [offsetLoop, List.map_cons, List.sum_cons]
    rw [ih _ _ (InInt32_wrap32 _), wrap32_wrap32_add, add_assoc]

theorem offsetLoop_height (x h : Int) (cs : List ClientConn) :
    (offsetLoop x h cs).2.2 ≤ h ∧
    (∀ d ∈ cs, (offsetLoop x h cs).2.2 ≤ d.WindowSettings.Height) ∧
    ((offsetLoop x h cs).2.2 = h ∨ ∃ d ∈ cs, (offsetLoop x h cs).2.2 = d.WindowSettings.Height) := by
  induction cs generalizing x h with
  | nil => simp [offsetLoop]
  | cons c cs ih =>
    simp only [offsetLoop]
    obtain ⟨i1, i2, i3⟩ := ih (wrap32 (x + c.WindowSettings.Width))
      (if h > c.WindowSettings.Height then c.WindowSettings.Height else h)
    generalize (offsetLoop (wrap32 (x + c.WindowSettings.Width))
      (if h > c.WindowSettings.Height then c.WindowSettings.Height else h) cs).2.2 = r at *
    refine ⟨?_, ?_, ?_⟩
    · split_ifs at i1 <;> omega
    · intro d hd
      rcases List.mem_cons.1 hd with rfl | hd
      · split_ifs at i1 <;> omega
      · exact i2 d hd
    · rcases i3 with e | ⟨d, hd, e⟩
      · split_ifs at e with hc
        · exact Or.inr ⟨c, List.mem_cons_self _ _, e⟩
        · exact Or.inl e
      · exact Or.inr ⟨d, List.mem_cons_of_mem _ hd, e⟩

theorem setControlledPaddle_length (paddle : Int) (k : Nat) (l : List ClientConn) :
    (setControlledPaddle paddle k l).length = l.length := by
  induction l generalizing k with
  | nil => cases k <;> rfl
  | cons c cs ih => cases k <;> simp [setControlledPaddle, ih]

theorem setControlledPaddle_getElem (paddle : Int) (k i : Nat) (l : List ClientConn) :
    (setControlledPaddle paddle k l)[i]? =
      if i = k then
        (l[i]?).map (fun c =>
          { c with ViewSettings := { c.ViewSettings with ControlledPaddle := paddle } })
      else l[i]? := by
  induction l generalizing k i with
  | nil => cases k <;> simp [setControlledPaddle]
  | cons c cs ih =>
    cases k with
    | zero =>
      cases i with
      | zero => simp [setControlledPaddle]
      | succ i => simp [setControlledPaddle]
    | succ k =>
      cases i with
      | zero => simp [setControlledPaddle]
      | succ i => simp [setControlledPaddle, ih]

/-- The result of `GenerateViewSettings` on a non-empty slice, client by
client. -/
theorem GenerateViewSettings_spec (clients : List ClientConn) (hne : clients ≠ []) :
    ∃ out, GenerateViewSettings clients = some out ∧ out.length = clients.length ∧
      ∃ height : Int,
        (∀ d ∈ clients, height ≤ d.WindowSettings.Height) ∧
        (∃ d ∈ clients, height = d.WindowSettings.Height) ∧
        ∀ i : Nat, out[i]? = (clients[i]?).map (fun c =>
          { c with ViewSettings :=
              { XOffset :=
                  wrap32 (((clients.take i).map (fun d => d.WindowSettings.Width)).sum)
                Height := height
                Width := wrap32 ((clients.map (fun d => d.WindowSettings.Width)).sum)
                ControlledPaddle :=
                  if i = 0 then MoveLeftPaddle
                  else if i = clients.length - 1 then MoveRightPaddle
                  else MoveNonePaddle } }) := by
  cases clients with
  | nil => exact absurd rfl hne
  | cons c0 cs =>
    have h0 : InInt32 0 := by unfold InInt32; omega
    obtain ⟨i1, i2, i3⟩ := offsetLoop_height 0 c0.WindowSettings.Height (c0 :: cs)
    have hx := offsetLoop_xOffset 0 c0.WindowSettings.Height (c0 :: cs) h0
    have hl := offsetLoop_length 0 c0.WindowSettings.Height (c0 :: cs)
    have hg := fun i => offsetLoop_getElem 0 c0.WindowSettings.Height (c0 :: cs) i h0
    refine ⟨_, rfl, ?_, (offsetLoop 0 c0.WindowSettings.Height (c0 :: cs)).2.2, i2, ?_, ?_⟩
    · simp [setControlledPaddle_length, hl]
    · rcases i3 with e | e
      · exact ⟨c0, List.mem_cons_self _ _, e⟩
      · exact e
    · intro i
      rw [setControlledPaddle_getElem, setControlledPaddle_getElem, List.getElem?_map, hg, hx,
        List.length_map, hl]
      simp only [zero_add]
      cases (c0 :: cs)[i]? with
      | none => simp
      | some c =>
        simp only [Option.map_some']
        split_ifs <;> rfl

end NetPongTerm

namespace NetPongTerm

/-- Claim C3, as the code does it: viewport geometry.  For every non-empty
list of registered clients `GenerateViewSettings` succeeds and gives client `i`
(in registration order) `XOffset` equal to the `int32` sum (the sum wrapped to
32 bits) of the window widths of clients `0..i-1`, `Height` equal to the
minimum window height over all clients, and `Width` equal to the `int32` sum
of all window widths; whenever such a sum fits in an `int32` the field is the
exact sum. -/
theorem viewport_geometry (clients : List ClientConn) (hne : clients ≠ []) :
    ∃ out, GenerateViewSettings clients = some out ∧ out.length = clients.length ∧
      ∀ i : Nat, i < clients.length →
        ∃ c, out[i]? = some c ∧
          c.ViewSettings.XOffset =
            wrap32 (((clients.take i).map (fun d => d.WindowSettings.Width)).sum) ∧
          c.ViewSettings.Width =
            wrap32 ((clients.map (fun d => d.WindowSettings.Width)).sum) ∧
          (∀ d ∈ clients, c.ViewSettings.Height ≤ d.WindowSettings.Height) ∧
          (∃ d ∈ clients, c.ViewSettings.Height = d.WindowSettings.Height) ∧
          (InInt32 (((clients.take i).map (fun d => d.WindowSettings.Width)).sum) →
            c.ViewSettings.XOffset =
              ((clients.take i).map (fun d => d.WindowSettings.Width)).sum) ∧
          (InInt32 ((clients.map (fun d => d.WindowSettings.Width)).sum) →
            c.ViewSettings.Width = (clients.map (fun d => d.WindowSettings.Width)).sum) := by
  obtain ⟨out, h1, h2, height, h3, h4, h5⟩ := GenerateViewSettings_spec clients hne
  refine ⟨out, h1, h2, ?_⟩
  intro i hi
  have hc : clients[i]? = some clients[i] := List.getElem?_eq_getElem hi
  have ho := h5 i
  rw [hc, Option.map_some'] at ho
  exact ⟨_, ho, rfl, rfl, h3, h4, fun h => wrap32_of_InInt32 _ h, fun h => wrap32_of_InInt32 _ h⟩

/-- Claim C3, the claim as stated fails: for two clients with window widths
2147483647 and 1 the exact sum of the widths is 2147483648, but the `Width`
that `GenerateViewSettings` gives to both clients is -2147483648. -/
theorem viewport_geometry_counterexample :
    (GenerateViewSettings
      [{ Addr := 0, WindowSettings := { Width := 2147483647, Height := 20, Last := 0 },
         ViewSettings := { XOffset := 0, Height := 0, Width := 0, ControlledPaddle := 0 } },
       { Addr := 1, WindowSettings := { Width := 1, Height := 20, Last := 1 },
         ViewSettings := { XOffset := 0, Height := 0, Width := 0, ControlledPaddle := 0 } }]).map
      (fun out => out.map (fun c => c.ViewSettings.Width)) =
      some [-2147483648, -2147483648] ∧
    InInt32 2147483647 ∧ InInt32 1 ∧
    ([(2147483647 : Int), 1].sum = 2147483648) := by
  decide

/-- Claim C3, witness: the layout example, heights 20, 24, 18 and widths 40, 40,
40: shared height 18, offsets 0, 40, 80 and combined width 120. -/
theorem viewport_geometry_witness :
    exampleClients ≠ [] ∧
    (GenerateViewSettings exampleClients).map (fun out => out.map (fun c => c.ViewSettings)) =
      some [{ XOffset := 0, Height := 18, Width := 120, ControlledPaddle := 1 },
            { XOffset := 40, Height := 18, Width := 120, ControlledPaddle := 0 },
            { XOffset := 80, Height := 18, Width := 120, ControlledPaddle := 2 }] ∧
    ∃ out, GenerateViewSettings exampleClients = some out ∧
      out.length = exampleClients.length ∧
      ∀ i : Nat, i < exampleClients.length →
        ∃ c, out[i]? = some c ∧
          c.ViewSettings.XOffset =
            wrap32 (((exampleClients.take i).map (fun d => d.WindowSettings.Width)).sum) ∧
          c.ViewSettings.Width =
            wrap32 ((exampleClients.map (fun d => d.WindowSettings.Width)).sum) ∧
          (∀ d ∈ exampleClients, c.ViewSettings.Height ≤ d.WindowSettings.Height) ∧
          (∃ d ∈ exampleClients, c.ViewSettings.Height = d.WindowSettings.Height) ∧
          (InInt32 (((exampleClients.take i).map (fun d => d.WindowSettings.Width)).sum) →
            c.ViewSettings.XOffset =
              ((exampleClients.take i).map (fun d => d.WindowSettings.Width)).sum) ∧
          (InInt32 ((exampleClients.map (fun d => d.WindowSettings.Width)).sum) →
            c.ViewSettings.Width =
              (exampleClients.map (fun d => d.WindowSettings.Width)).sum) :=
  ⟨by decide, by decide, viewport_geometry exampleClients (by decide)⟩

/-- Claim C4, as the code does it: control assignment.  For every non-empty
list of registered clients, after `GenerateViewSettings` the first registered
client has `ControlledPaddle = MoveLeftPaddle`, the last registered client has
`MoveRightPaddle` unless it is also the first, and every other client has
`MoveNonePaddle`.  Hence with at least two clients exactly one client holds
the left paddle (the first), exactly one holds the right paddle (the last) and
all others hold none. -/
theorem control_assignment (clients : List ClientConn) (hne : clients ≠ []) :
    ∃ out, GenerateViewSettings clients = some out ∧ out.length = clients.length ∧
      (∀ (i : Nat) (c : ClientConn), out[i]? = some c →
        c.ViewSettings.ControlledPaddle =
          if i = 0 then MoveLeftPaddle
          else if i = clients.length - 1 then MoveRightPaddle
          else MoveNonePaddle) ∧
      (2 ≤ clients.length →
        ∀ (i : Nat) (c : ClientConn), out[i]? = some c →
          (c.ViewSettings.ControlledPaddle = MoveLeftPaddle ↔ i = 0) ∧
          (c.ViewSettings.ControlledPaddle = MoveRightPaddle ↔ i = clients.length - 1) ∧
          (i ≠ 0 → i ≠ clients.length - 1 →
            c.ViewSettings.ControlledPaddle = MoveNonePaddle)) := by
  obtain ⟨out, h1, h2, height, -, -, h5⟩ := GenerateViewSettings_spec clients hne
  have key : ∀ (i : Nat) (c : ClientConn), out[i]? = some c →
      c.ViewSettings.ControlledPaddle =
        if i = 0 then MoveLeftPaddle
        else if i = clients.length - 1 then MoveRightPaddle
        else MoveNonePaddle := by
    intro i c hc
    have ho := h5 i
    rw [hc] at ho
    cases hci : clients[i]? with
    | none => rw [hci] at ho; simp at ho
    | some d =>
      rw [hci, Option.map_some'] at ho
      rw [Option.some.inj ho]
  refine ⟨out, h1, h2, key, ?_⟩
  intro h2l i c hc
  have hk := key i c hc
  rw [hk]
  unfold MoveLeftPaddle MoveRightPaddle MoveNonePaddle
  refine ⟨?_, ?_, ?_⟩
  · split_ifs <;> simp_all
  · split_ifs <;> omega
  · intro a b
    rw [if_neg a, if_neg b]

/-- Claim C4, the claim as stated fails: with a single registered client,
`GenerateViewSettings` leaves that client with `MoveLeftPaddle`, so no client
has `ControlledPaddle = MoveRightPaddle`. -/
theorem control_assignment_counterexample :
    (GenerateViewSettings
      [{ Addr := 0, WindowSettings := { Width := 80, Height := 24, Last := 1 },
         ViewSettings := { XOffset := 0, Height := 0, Width := 0, ControlledPaddle := 0 } }]).map
      (fun out => out.map (fun c => c.ViewSettings.ControlledPaddle)) =
      some [MoveLeftPaddle] ∧
    MoveLeftPaddle ≠ MoveRightPaddle := by
  decide

/-- Claim C4, witness: the three clients of the layout example. -/
theorem control_assignment_witness :
    exampleClients ≠ [] ∧ 2 ≤ exampleClients.length ∧
    ∃ out, GenerateViewSettings exampleClients = some out ∧
      out.length = exampleClients.length ∧
      (∀ (i : Nat) (c : ClientConn), out[i]? = some c →
        c.ViewSettings.ControlledPaddle =
          if i = 0 then MoveLeftPaddle
          else if i = exampleClients.length - 1 then MoveRightPaddle
          else MoveNonePaddle) ∧
      (2 ≤ exampleClients.length →
        ∀ (i : Nat) (c : ClientConn), out[i]? = some c →
          (c.ViewSettings.ControlledPaddle = MoveLeftPaddle ↔ i = 0) ∧
          (c.ViewSettings.ControlledPaddle = MoveRightPaddle ↔
            i = exampleClients.length - 1) ∧
          (i ≠ 0 → i ≠ exampleClients.length - 1 →
            c.ViewSettings.ControlledPaddle = MoveNonePaddle)) :=
  ⟨by decide, by decide, control_assignment exampleClients (by decide)⟩

end NetPongTerm

namespace NetPongTerm

section TickLemmas

variable {F : Type} [TickModel F]

/-- The method `EnterMode` with one of the three mode constants sets the tick
to `initialTick`. -/
theorem EnterMode_tick (g : GameState F) (mode : Int)
    (hm : mode = GameModePlaying ∨ mode = GameModeLeftPlayerLoosed ∨
      mode = GameModeRightPlayerLoosed) :
    (EnterMode g mode).Tick = TickModel.initialTick := by
  rcases hm with rfl | rfl | rfl <;>
  · simp only [EnterMode, GameModePlaying, GameModeLeftPlayerLoosed, GameModeRightPlayerLoosed]
    split_ifs <;> rfl

/-- Mode and tick after the left-paddle branch of `Update`. -/
theorem leftPaddleBranch_mode_tick (g : GameState F) :
    (paddleTest g.Ball g.LeftPlayerPaddle → (leftPaddleBranch g).Mode = g.Mode) ∧
    (¬ paddleTest g.Ball g.LeftPlayerPaddle →
      (leftPaddleBranch g).Mode = GameModeLeftPlayerLoosed ∧
      (leftPaddleBranch g).Tick = TickModel.initialTick) := by
  constructor
  · intro ht
    simp only [leftPaddleBranch, if_pos ht]
  · intro ht
    simp only [leftPaddleBranch, if_neg ht]
    exact ⟨(EnterMode_lost_mode _ _ (Or.inl rfl)).1, EnterMode_tick _ _ (Or.inr (Or.inl rfl))⟩

/-- Mode and tick after the right-paddle branch of `Update`. -/
theorem rightPaddleBranch_mode_tick (g : GameState F) :
    (paddleTest g.Ball g.RightPlayerPaddle → (rightPaddleBranch g).Mode = g.Mode) ∧
    (¬ paddleTest g.Ball g.RightPlayerPaddle →
      (rightPaddleBranch g).Mode = GameModeRightPlayerLoosed ∧
      (rightPaddleBranch g).Tick = TickModel.initialTick) := by
  constructor
  · intro ht
    simp only [rightPaddleBranch, if_pos ht]
  · intro ht
    simp only [rightPaddleBranch, if_neg ht]
    exact ⟨(EnterMode_lost_mode _ _ (Or.inr rfl)).1, EnterMode_tick _ _ (Or.inr (Or.inr rfl))⟩

/-- The paddle-column step of `Update` either keeps the mode or enters a lost
mode with the tick reset. -/
theorem paddleStep_mode_tick (g : GameState F) :
    (paddleStep g).Mode = g.Mode ∨
    (((paddleStep g).Mode = GameModeLeftPlayerLoosed ∨
        (paddleStep g).Mode = GameModeRightPlayerLoosed) ∧
      (paddleStep g).Tick = TickModel.initialTick) := by
  unfold paddleStep
  split_ifs with h1 h2
  · by_cases ht : paddleTest g.Ball g.LeftPlayerPaddle
    · exact Or.inl ((leftPaddleBranch_mode_tick g).1 ht)
    · exact Or.inr ⟨Or.inl ((leftPaddleBranch_mode_tick g).2 ht).1,
        ((leftPaddleBranch_mode_tick g).2 ht).2⟩
  · by_cases ht : paddleTest g.Ball g.RightPlayerPaddle
    · exact Or.inl ((rightPaddleBranch_mode_tick g).1 ht)
    · exact Or.inr ⟨Or.inr ((rightPaddleBranch_mode_tick g).2 ht).1,
        ((rightPaddleBranch_mode_tick g).2 ht).2⟩
  · exact Or.inl rfl

/-- The wall step of `Update` does not write the tick. -/
theorem wallStep_tick (g : GameState F) : (wallStep g).Tick = g.Tick := by
  unfold wallStep
  split_ifs <;> rfl

/-- Mode and tick after a pause step of `Update`. -/
theorem lostStep_mode_tick (g : GameState F) (p : Paddle) :
    (lostStep g p).Mode = g.Mode ∨
    ((lostStep g p).Mode = GameModePlaying ∧ (lostStep g p).Tick = TickModel.initialTick) := by
  simp only [lostStep]
  split_ifs
  · right
    exact ⟨by simp [EnterMode], EnterMode_tick _ _ (Or.inl rfl)⟩
  · left
    rfl

/-- The tick after an `Update` that changes the mode: a step from
`GameModePlaying` into a lost mode leaves the tick one smoothing step after
`initialTick` (line 197 runs after `EnterMode`), and a step from a lost mode
back to `GameModePlaying` leaves it at `initialTick`. -/
theorem Update_mode_change_tick (g : GameState F) (hne : (Update g).Mode ≠ g.Mode) :
    (g.Mode = GameModePlaying ∧
      ((Update g).Mode = GameModeLeftPlayerLoosed ∨
        (Update g).Mode = GameModeRightPlayerLoosed) ∧
      (Update g).Tick = TickModel.tickStep (TickModel.initialTick : F)) ∨
    ((g.Mode = GameModeLeftPlayerLoosed ∨ g.Mode = GameModeRightPlayerLoosed) ∧
      (Update g).Mode = GameModePlaying ∧
      (Update g).Tick = TickModel.initialTick) := by
  by_cases h0 : g.Mode = GameModePlaying
  · left
    have hu := Update_playing g h0
    rw [hu] at hne ⊢
    have hq := (wallStep_spec (paddleStep (advanceBall g))).1
    have hm : (tickUpdate (wallStep (paddleStep (advanceBall g)))).Mode =
        (paddleStep (advanceBall g)).Mode := hq
    have ht : (tickUpdate (wallStep (paddleStep (advanceBall g)))).Tick =
        TickModel.tickStep (paddleStep (advanceBall g)).Tick := by
      show TickModel.tickStep (wallStep (paddleStep (advanceBall g))).Tick = _
      rw [wallStep_tick]
    rw [hm] at hne
    rcases paddleStep_mode_tick (advanceBall g) with hs | ⟨hl, htk⟩
    · exact absurd hs hne
    · refine ⟨h0, ?_, ?_⟩
      · rw [hm]; exact hl
      · rw [ht, htk]
  · right
    by_cases h1 : g.Mode = GameModeLeftPlayerLoosed
    · have hu : Update g = lostStep g g.LeftPlayerPaddle := by
        unfold Update
        rw [if_neg h0, if_pos h1]
      rw [hu] at hne ⊢
      rcases lostStep_mode_tick g g.LeftPlayerPaddle with hs | ⟨hp, htk⟩
      · exact absurd hs hne
      · exact ⟨Or.inl h1, hp, htk⟩
    · by_cases h2 : g.Mode = GameModeRightPlayerLoosed
      · have hu : Update g = lostStep g g.RightPlayerPaddle := by
          unfold Update
          rw [if_neg h0, if_neg h1, if_pos h2]
        rw [hu] at hne ⊢
        rcases lostStep_mode_tick g g.RightPlayerPaddle with hs | ⟨hp, htk⟩
        · exact absurd hs hne
        · exact ⟨Or.inr h2, hp, htk⟩
      · have hu : Update g = g := by
          unfold Update
          rw [if_neg h0, if_neg h1, if_neg h2]
        rw [hu] at hne
        exact absurd rfl hne

end TickLemmas

set_option maxRecDepth 100000

/-- In `float64`, `initialTick` is 70.0 (bits `0x4051800000000000`) and one
smoothing step after it, `70*99/100 + .35`, is 69.64999999999999 (bits
`0x4051699999999999`). -/
theorem tickStep_initialTick :
    (TickModel.initialTick : Float64) = 4634626229029306368 ∧
    TickModel.tickStep (TickModel.initialTick : Float64) = 4634601599968844185 := by
  decide

section TickTheorem

variable {F : Type} [TickModel F]

/-- Claim C11, as the code does it: tick after a mode transition.  Whatever
the model of the two tick computations (exact rationals included), for every
game state an `Update` step that changes the mode either goes from a lost mode
back to `GameModePlaying` (the timeout went below 0) and leaves the tick at
the initial constant, or goes from `GameModePlaying` to a lost mode (a point
is scored) and leaves the tick at one smoothing step `t*99/100 + .35` after the
initial constant: `EnterMode` resets the tick and line 197 then runs in the
same step. -/
theorem tick_after_mode_transition (g : GameState F) (hne : (Update g).Mode ≠ g.Mode) :
    (g.Mode = GameModePlaying ∧
      ((Update g).Mode = GameModeLeftPlayerLoosed ∨
        (Update g).Mode = GameModeRightPlayerLoosed) ∧
      (Update g).Tick = TickModel.tickStep (TickModel.initialTick : F)) ∨
    ((g.Mode = GameModeLeftPlayerLoosed ∨ g.Mode = GameModeRightPlayerLoosed) ∧
      (Update g).Mode = GameModePlaying ∧
      (Update g).Tick = TickModel.initialTick) :=
  Update_mode_change_tick g hne

end TickTheorem

/-- Claim C11, the claim as stated fails: the `Update` of `exampleGame` scores
a point and changes the mode from `GameModePlaying` to
`GameModeLeftPlayerLoosed`; the tick after it is the `float64`
69.64999999999999 (bits `0x4051699999999999`), not the initial constant 70.0
(bits `0x4051800000000000`). -/
theorem tick_after_mode_transition_counterexample :
    exampleGame.Mode = GameModePlaying ∧
    (Update exampleGame).Mode = GameModeLeftPlayerLoosed ∧
    (Update exampleGame).Tick = 4634601599968844185 ∧
    (TickModel.initialTick : Float64) = 4634626229029306368 ∧
    (Update exampleGame).Tick ≠ TickModel.initialTick := by
  have h1 : exampleGame.Mode = GameModePlaying := by decide
  have h2 : (Update exampleGame).Mode = GameModeLeftPlayerLoosed := by decide
  have hne : (Update exampleGame).Mode ≠ exampleGame.Mode := by decide
  have ht : (Update exampleGame).Tick = 4634601599968844185 := by
    rcases Update_mode_change_tick exampleGame hne with ⟨-, -, c⟩ | ⟨a, -, -⟩
    · rw [c]; exact tickStep_initialTick.2
    · rw [h1] at a
      exact absurd a (by decide)
  refine ⟨h1, h2, ht, tickStep_initialTick.1, ?_⟩
  rw [ht, tickStep_initialTick.1]
  decide

/-- Claim C11, witness: the scoring step of `exampleGame` and the step that ends
the pause 13 ticks later. -/
theorem tick_after_mode_transition_witness :
    ((Update exampleGame).Mode ≠ exampleGame.Mode ∧
      ((exampleGame.Mode = GameModePlaying ∧
          ((Update exampleGame).Mode = GameModeLeftPlayerLoosed ∨
            (Update exampleGame).Mode = GameModeRightPlayerLoosed) ∧
          (Update exampleGame).Tick = TickModel.tickStep (TickModel.initialTick : Float64)) ∨
        ((exampleGame.Mode = GameModeLeftPlayerLoosed ∨
            exampleGame.Mode = GameModeRightPlayerLoosed) ∧
          (Update exampleGame).Mode = GameModePlaying ∧
          (Update exampleGame).Tick = TickModel.initialTick))) ∧
    ((Update (UpdateN 13 exampleGame)).Mode ≠ (UpdateN 13 exampleGame).Mode ∧
      (((UpdateN 13 exampleGame).Mode = GameModePlaying ∧
          ((Update (UpdateN 13 exampleGame)).Mode = GameModeLeftPlayerLoosed ∨
            (Update (UpdateN 13 exampleGame)).Mode = GameModeRightPlayerLoosed) ∧
          (Update (UpdateN 13 exampleGame)).Tick =
            TickModel.tickStep (TickModel.initialTick : Float64)) ∨
        (((UpdateN 13 exampleGame).Mode = GameModeLeftPlayerLoosed ∨
            (UpdateN 13 exampleGame).Mode = GameModeRightPlayerLoosed) ∧
          (Update (UpdateN 13 exampleGame)).Mode = GameModePlaying ∧
          (Update (UpdateN 13 exampleGame)).Tick = TickModel.initialTick))) :=
  ⟨⟨by decide, tick_after_mode_transition exampleGame (by decide)⟩,
    ⟨by decide, tick_after_mode_transition (UpdateN 13 exampleGame) (by decide)⟩⟩

end NetPongTerm
